import Mathlib

/-!
Verification of the CO₂ compressor weekly-plan calculator.

The repository contains two Python implementations of the same calculator
class `CompressorOptimizer`:
* `compressor_optimizer.py` — embedded below in namespace `Optimizer`;
* `app.py` — embedded below in namespace `App`.

Numbers are modelled as exact rationals (`ℚ`); Python decimal literals are
read exactly.  Python's built-in `round` (banker's rounding, half to even)
is modelled by `pyRound`, and `round(x, n)` by `pyRoundDec n x`.
Speeds (RPM values) are modelled as `ℤ`.
-/

/-- Python's built-in `round` on an exact rational: round half to even. -/
def pyRound (q : ℚ) : ℤ :=
  let n := ⌊q⌋
  let f := q - n
  if f < 1/2 then n
  else if 1/2 < f then n + 1
  else if 2 ∣ n then n else n + 1

/-- Python's `round(x, nd)`: round to `nd` decimal places, half to even. -/
def pyRoundDec (nd : ℕ) (q : ℚ) : ℚ :=
  (pyRound (q * 10 ^ nd) : ℚ) / 10 ^ nd

/-- Python's `max` on a list of numbers (empty list raises in Python;
the `0` default is never reached where this is used). -/
def pymax : List ℚ → ℚ
  | [] => 0
  | h :: t => t.foldl max h

/-- The Python list comprehension `[l for l in loads if l <= x]`. -/
def leFilter : List ℚ → ℚ → List ℚ
  | [], _ => []
  | h :: t, x => if h ≤ x then h :: leFilter t x else leFilter t x

/-- The `for rpm, load in ...items(): if abs(load - c) < 0.0001: return rpm`
loop of `compressor_optimizer.py` (`None` models falling off the loop). -/
def findClose : List (ℤ × ℚ) → ℚ → Option ℤ
  | [], _ => none
  | (rpm, load) :: t, c => if |load - c| < 0.0001 then some rpm else findClose t c

/-- Python `dict.get(key, default)` for an `int`-keyed dict held as an
association list in insertion order. -/
def dictGetD : List (ℤ × ℚ) → ℤ → ℚ → ℚ
  | [], _, d => d
  | (k, v) :: t, r, d => if k = r then v else dictGetD t r d

/-- Python `dict[key]` for a rational-keyed dict; a missing key raises
`KeyError` in Python, modelled by the (never reached) default. -/
def dictGetQ : List (ℚ × ℤ) → ℚ → ℤ → ℤ
  | [], _, d => d
  | (k, v) :: t, r, d => if k = r then v else dictGetQ t r d

/-- A descending-index Python loop `for i in range(n-1, -1, -1):
if key[i] <= x: return val[i]`, applied to the *reversed* ascending table;
`d` is the value returned when the loop falls through. -/
def firstLE {β : Type} (d : β) : List (ℚ × β) → ℚ → β
  | [], _ => d
  | (k, v) :: t, x => if k ≤ x then v else firstLE d t x

/-- Like `firstLE` but returning which table entry fired, for loops whose
body transforms the found value. -/
def firstLEOpt {β : Type} : List (ℚ × β) → ℚ → Option β
  | [], _ => none
  | (k, v) :: t, x => if k ≤ x then some v else firstLEOpt t x

/-- The tabulated entries whose key is `≤ x`, in table order.  For an
ascending table the last element of `keepLE tbl x` is the entry with the
largest key `≤ x`; this is the specification-side reading of the
"find the largest tabulated value that is `<= x`" lookups. -/
def keepLE {β : Type} : List (ℚ × β) → ℚ → List (ℚ × β)
  | [], _ => []
  | (k, v) :: t, x => if k ≤ x then (k, v) :: keepLE t x else keepLE t x

/-- Spec-side lookup: the value paired with the largest tabulated key
`≤ x` (the table being ascending), if any. -/
def specLast {β : Type} (tbl : List (ℚ × β)) (x : ℚ) : Option β :=
  ((keepLE tbl x).getLast?).map Prod.snd

/-- `keepLE` for the speed-keyed table of `compressor_optimizer.py`
(`List (ℤ × ℚ)`, the load ratio in the second component). -/
def keepRatioLE : List (ℤ × ℚ) → ℚ → List (ℤ × ℚ)
  | [], _ => []
  | (r, l) :: t, x => if l ≤ x then (r, l) :: keepRatioLE t x else keepRatioLE t x

/-- Spec-side lookup in the speed-keyed table: the entry with the largest
tabulated load ratio `≤ x` (the table being ascending in ratio), if any. -/
def specLastRatio (tbl : List (ℤ × ℚ)) (x : ℚ) : Option (ℤ × ℚ) :=
  (keepRatioLE tbl x).getLast?

/-- The slice of `default_params` that `generate_weekly_plan` reads; the UI
layer overwrites these two entries before each run. -/
structure Params where
  current_capacity : ℚ
  empty_loss : ℚ
  deriving Repr, DecidableEq

/-- `default_params` entries used by the planner (both files). -/
def default_params : Params := { current_capacity := 1000, empty_loss := 60 }

/-- The `days` list of `generate_weekly_plan` (both files). -/
def days : List String := ["周一", "周二", "周三", "周四", "周五", "周六", "周日"]

/-- The per-day quantities computed by the body of the
`generate_weekly_plan` loop, before any display rounding. -/
structure DayRaw where
  loading : ℚ
  daily_demand : ℚ
  start_capacity : ℚ
  mode : String
  valley_rpm : ℤ
  flat_rpm : ℤ
  peak_rpm : ℤ
  flat_load_rate : ℚ
  peak_load_rate : ℚ
  estimated_output : ℚ
  capacity_change : ℚ
  end_capacity : ℚ
  refill_flag : String
  capacity_alert : String
  deriving Repr, DecidableEq

/-- One row of the returned plan: the record dict appended to `results`,
with the `round(..., n)` display rounding the code applies to each field. -/
structure DayPlan where
  date : String
  loading : ℚ
  daily_demand : ℚ
  start_capacity : ℚ
  mode : String
  valley_rpm : ℤ
  flat_rpm : ℤ
  peak_rpm : ℤ
  flat_load_rate : ℚ
  peak_load_rate : ℚ
  estimated_output : ℚ
  capacity_change : ℚ
  end_capacity : ℚ
  refill_flag : String
  capacity_alert : String
  deriving Repr, DecidableEq

/-- The capacity alert chain of the loop body (identical in both files):
`> 1300` high, `< 900` low, otherwise normal. -/
def capacity_alert_of (end_capacity : ℚ) : String :=
  if end_capacity > 1300 then "罐容偏高，注意控制"
  else if end_capacity < 900 then "罐容偏低，注意补充"
  else "正常"

/-- Build the result row appended to `results` from the day's computed
quantities (the dict literal of the loop body, including its rounding). -/
def renderDay (date : String) (d : DayRaw) : DayPlan :=
  { date := date
    loading := d.loading
    daily_demand := pyRoundDec 5 d.daily_demand
    start_capacity := pyRoundDec 5 d.start_capacity
    mode := d.mode
    valley_rpm := d.valley_rpm
    flat_rpm := d.flat_rpm
    peak_rpm := d.peak_rpm
    flat_load_rate := pyRoundDec 4 d.flat_load_rate
    peak_load_rate := pyRoundDec 4 d.peak_load_rate
    estimated_output := pyRoundDec 1 d.estimated_output
    capacity_change := pyRoundDec 1 d.capacity_change
    end_capacity := pyRoundDec 1 d.end_capacity
    refill_flag := d.refill_flag
    capacity_alert := d.capacity_alert }

/-- The `generate_weekly_plan` loop, abstracted over the per-day body
`step` (the two files share the loop verbatim and differ only in the
helper functions the body calls).  The unrounded `end_capacity` of each
day is carried into the next iteration. -/
def weekRaw (step : ℚ → ℚ → ℚ → DayRaw) : ℚ → ℚ → List ℚ → List DayRaw
  | _, _, [] => []
  | cap, el, l :: ls =>
    let d := step cap el l
    d :: weekRaw step d.end_capacity el ls

/-- The `generate_weekly_plan` loop including the `days[i]` label lookup:
with more loadings than labels, Python raises `IndexError` on day 8,
modelled as `none`. -/
def weekAux (step : ℚ → ℚ → ℚ → DayRaw) :
    List String → ℚ → ℚ → List ℚ → Option (List DayPlan)
  | _, _, _, [] => some []
  | [], _, _, _ :: _ => none
  | lb :: lbs, cap, el, l :: ls =>
    let d := step cap el l
    (weekAux step lbs d.end_capacity el ls).map (fun rest => renderDay lb d :: rest)

namespace Optimizer

/-- `rpm_load_map` of `compressor_optimizer.py`, in insertion order. -/
def rpm_load_map : List (ℤ × ℚ) :=
  [(450, 0.617543859649123),
   (470, 0.659649122807018),
   (490, 0.694736842105263),
   (510, 0.736842105263158),
   (530, 0.771929824561403),
   (550, 0.814035087719298),
   (570, 0.856140350877193),
   (590, 0.891228070175439),
   (610, 0.933333333333333),
   (630, 0.996491228070175)]

/-- `load_rpm_map`: the reverse mapping `{v: k for k, v in ...}`. -/
def load_rpm_map : List (ℚ × ℤ) := rpm_load_map.map (fun p => (p.2, p.1))

/-- `get_rpm_from_load` of `compressor_optimizer.py`.  The dict values are
listed in ascending order, so Python's `sorted(...)` is the identity and
the sorted list is recorded directly.  The final two lines of the Python
function are dead code: `findClose` always fires on an exact table value. -/
def get_rpm_from_load (load_rate : ℚ) : ℤ :=
  if load_rate ≤ 0.62 then 450
  else if load_rate ≥ 0.9965 then 630
  else
    let available_loads := rpm_load_map.map Prod.snd
    let closest_load := pymax (leFilter available_loads load_rate)
    match findClose rpm_load_map closest_load with
    | some rpm => rpm
    | none => pyRound ((dictGetQ load_rpm_map closest_load 0 : ℚ) / 20) * 20

/-- `get_load_from_rpm` of `compressor_optimizer.py`:
`self.rpm_load_map.get(rpm, 0.62)`. -/
def get_load_from_rpm (rpm : ℤ) : ℚ :=
  dictGetD rpm_load_map rpm 0.62

/-- `calculate_daily_output` of `compressor_optimizer.py`. -/
def calculate_daily_output (mode : String) (flat_load peak_load : ℚ) : ℚ :=
  let single_valley_output : ℚ := 95
  let single_flat_output : ℚ := 106.875
  let single_peak_output : ℚ := 83.125
  if mode = "单机" then
    single_valley_output + single_flat_output * flat_load + single_peak_output * peak_load
  else
    single_valley_output * 2 + single_flat_output * 2 * flat_load
      + single_peak_output * 2 * peak_load

/-- `determine_mode` of `compressor_optimizer.py`. -/
def determine_mode (daily_demand current_capacity : ℚ) : String :=
  if current_capacity < 900 ∧ daily_demand ≤ 350 then "双机补库"
  else if daily_demand > 350 then "双机"
  else "单机"

/-- `calculate_flat_rpm` of `compressor_optimizer.py`. -/
def calculate_flat_rpm (mode : String) (daily_demand : ℚ) : ℤ :=
  if mode = "单机" then
    let demand_gap := daily_demand - 95
    let flat_target_output := demand_gap * 0.75
    let flat_required_load := flat_target_output / 106.875
    let flat_required_load := max 0.62 (min 1.0 flat_required_load)
    let base_rpm := get_rpm_from_load flat_required_load
    max 450 (min 630 (pyRound ((base_rpm : ℚ) / 20) * 20))
  else
    let demand_gap := daily_demand - 190
    let flat_target_output := demand_gap * 0.75
    let flat_required_load := flat_target_output / 213.75
    let flat_required_load := max 0.62 (min 1.0 flat_required_load)
    let base_rpm := get_rpm_from_load flat_required_load
    max 450 (min 630 (pyRound ((base_rpm : ℚ) / 20) * 20))

/-- `calculate_peak_rpm` of `compressor_optimizer.py`. -/
def calculate_peak_rpm (mode : String) (flat_rpm : ℤ) (daily_demand : ℚ) : ℤ :=
  let flat_load := get_load_from_rpm flat_rpm
  if mode = "单机" then
    let flat_output := 106.875 * flat_load
    let remaining_demand := daily_demand - 95 - flat_output
    let peak_required_load := remaining_demand / 83.125
    let peak_required_load := max 0.62 (min 1.0 peak_required_load)
    let base_rpm := get_rpm_from_load peak_required_load
    max 450 (min 630 (pyRound ((base_rpm : ℚ) / 20) * 20))
  else
    let flat_output := 213.75 * flat_load
    let remaining_demand := daily_demand - 190 - flat_output
    let peak_required_load := remaining_demand / 166.25
    let peak_required_load := max 0.62 (min 1.0 peak_required_load)
    let base_rpm := get_rpm_from_load peak_required_load
    max 450 (min 630 (pyRound ((base_rpm : ℚ) / 20) * 20))

/-- The body of the `generate_weekly_plan` loop after the mode has been
determined (factored out so that the two dual modes can be compared). -/
def dayFields (mode : String) (current_capacity daily_demand loading : ℚ) : DayRaw :=
  let valley_rpm : ℤ := 630
  let flat_rpm := calculate_flat_rpm mode daily_demand
  let peak_rpm := calculate_peak_rpm mode flat_rpm daily_demand
  let flat_load_rate := get_load_from_rpm flat_rpm
  let peak_load_rate := get_load_from_rpm peak_rpm
  let estimated_output := calculate_daily_output mode flat_load_rate peak_load_rate
  let capacity_change := estimated_output - daily_demand
  let end_capacity := current_capacity + capacity_change
  let refill_flag := if mode = "双机补库" then "是" else "否"
  { loading := loading
    daily_demand := daily_demand
    start_capacity := current_capacity
    mode := mode
    valley_rpm := valley_rpm
    flat_rpm := flat_rpm
    peak_rpm := peak_rpm
    flat_load_rate := flat_load_rate
    peak_load_rate := peak_load_rate
    estimated_output := estimated_output
    capacity_change := capacity_change
    end_capacity := end_capacity
    refill_flag := refill_flag
    capacity_alert := capacity_alert_of end_capacity }

/-- One iteration of the `generate_weekly_plan` loop of
`compressor_optimizer.py`. -/
def computeDay (current_capacity empty_loss loading : ℚ) : DayRaw :=
  let daily_demand := loading + empty_loss
  dayFields (determine_mode daily_demand current_capacity) current_capacity
    daily_demand loading

/-- `generate_weekly_plan` of `compressor_optimizer.py`; the caller-settable
parameters it reads from `default_params` are passed explicitly. -/
def generate_weekly_plan (p : Params) (loading_data : List ℚ) : Option (List DayPlan) :=
  weekAux computeDay days p.current_capacity p.empty_loss loading_data

end Optimizer

namespace App

/-- `load_list` of `app.py` (the rounded ratio column used for lookups). -/
def load_list : List ℚ := [0.62, 0.66, 0.69, 0.74, 0.77, 0.81, 0.86, 0.89, 0.93, 1]

/-- `rpm_list` of `app.py`. -/
def rpm_list : List ℤ := [450, 470, 490, 510, 530, 550, 570, 590, 610, 630]

/-- `load_list` and `rpm_list` zipped (the loop indexes both in parallel). -/
def loadTbl : List (ℚ × ℤ) := load_list.zip rpm_list

/-- `rpm_list` (as rationals, for comparison with the rounded input) zipped
with `load_list`. -/
def speedTbl : List (ℚ × ℚ) := (rpm_list.map (fun r => (r : ℚ))).zip load_list

/-- `get_rpm_from_load` of `app.py`: descending scan for the largest
tabulated ratio `≤ load_rate`, result snapped to a multiple of 20 and
clamped; `450` if the scan falls through. -/
def get_rpm_from_load (load_rate : ℚ) : ℤ :=
  if load_rate ≤ 0.62 then 450
  else if load_rate ≥ 0.9965 then 630
  else
    match firstLEOpt loadTbl.reverse load_rate with
    | some base_rpm => min 630 (max 450 (pyRound ((base_rpm : ℚ) / 20) * 20))
    | none => 450

/-- `get_load_from_rpm` of `app.py`: round the input to a multiple of 20,
then a descending scan for the largest tabulated speed `≤` the rounded
input; `0.62` if the scan falls through. -/
def get_load_from_rpm (rpm : ℚ) : ℚ :=
  let rpm_rounded : ℚ := ((pyRound (rpm / 20) * 20 : ℤ) : ℚ)
  firstLE 0.62 speedTbl.reverse rpm_rounded

/-- `calculate_daily_output` of `app.py`. -/
def calculate_daily_output (mode : String) (flat_load peak_load : ℚ) : ℚ :=
  if mode = "单机" then 95 + 106.875 * flat_load + 83.125 * peak_load
  else 190 + 213.75 * flat_load + 166.25 * peak_load

/-- `determine_mode` of `app.py`. -/
def determine_mode (daily_demand current_capacity : ℚ) : String :=
  if current_capacity < 900 ∧ daily_demand ≤ 350 then "双机补库"
  else if daily_demand > 350 then "双机"
  else "单机"

/-- `calculate_flat_rpm` of `app.py` (no extra snap: it returns
`get_rpm_from_load` directly). -/
def calculate_flat_rpm (mode : String) (daily_demand : ℚ) : ℤ :=
  let flat_required_load :=
    if mode = "单机" then (daily_demand - 95) * 0.75 / 106.875
    else (daily_demand - 190) * 0.75 / 213.75
  get_rpm_from_load (max 0.62 (min 1.0 flat_required_load))

/-- `calculate_peak_rpm` of `app.py`. -/
def calculate_peak_rpm (mode : String) (flat_rpm : ℤ) (daily_demand : ℚ) : ℤ :=
  let flat_load := get_load_from_rpm (flat_rpm : ℚ)
  let peak_required_load :=
    if mode = "单机" then (daily_demand - 95 - 106.875 * flat_load) / 83.125
    else (daily_demand - 190 - 213.75 * flat_load) / 166.25
  get_rpm_from_load (max 0.62 (min 1.0 peak_required_load))

/-- The body of the `generate_weekly_plan` loop of `app.py` after the mode
has been determined. -/
def dayFields (mode : String) (current_capacity daily_demand loading : ℚ) : DayRaw :=
  let valley_rpm : ℤ := 630
  let flat_rpm := calculate_flat_rpm mode daily_demand
  let peak_rpm := calculate_peak_rpm mode flat_rpm daily_demand
  let flat_load := get_load_from_rpm (flat_rpm : ℚ)
  let peak_load := get_load_from_rpm (peak_rpm : ℚ)
  let output := calculate_daily_output mode flat_load peak_load
  let capacity_change := output - daily_demand
  let end_capacity := current_capacity + capacity_change
  let refill_flag := if mode = "双机补库" then "是" else "否"
  { loading := loading
    daily_demand := daily_demand
    start_capacity := current_capacity
    mode := mode
    valley_rpm := valley_rpm
    flat_rpm := flat_rpm
    peak_rpm := peak_rpm
    flat_load_rate := flat_load
    peak_load_rate := peak_load
    estimated_output := output
    capacity_change := capacity_change
    end_capacity := end_capacity
    refill_flag := refill_flag
    capacity_alert := capacity_alert_of end_capacity }

/-- One iteration of the `generate_weekly_plan` loop of `app.py`. -/
def computeDay (current_capacity empty_loss loading : ℚ) : DayRaw :=
  let daily_demand := loading + empty_loss
  dayFields (determine_mode daily_demand current_capacity) current_capacity
    daily_demand loading

/-- `generate_weekly_plan` of `app.py`. -/
def generate_weekly_plan (p : Params) (loading_data : List ℚ) : Option (List DayPlan) :=
  weekAux computeDay days p.current_capacity p.empty_loss loading_data

end App

/-- Piecewise-constant closed form of `Optimizer.get_rpm_from_load`. -/
def Ospec (x : ℚ) : ℤ :=
  if x ≤ 0.62 then 450
  else if x ≥ 0.9965 then 630
  else if x < 0.659649122807018 then 450
  else if x < 0.694736842105263 then 470
  else if x < 0.736842105263158 then 490
  else if x < 0.771929824561403 then 510
  else if x < 0.814035087719298 then 530
  else if x < 0.856140350877193 then 550
  else if x < 0.891228070175439 then 570
  else if x < 0.933333333333333 then 590
  else if x < 0.996491228070175 then 610
  else 630

/-- Piecewise-constant closed form of `App.get_rpm_from_load`. -/
def Aspec (x : ℚ) : ℤ :=
  if x ≤ 0.62 then 450
  else if x ≥ 0.9965 then 630
  else if x < 0.66 then 450
  else if x < 0.69 then 480
  else if x < 0.74 then 480
  else if x < 0.77 then 520
  else if x < 0.81 then 520
  else if x < 0.86 then 560
  else if x < 0.89 then 560
  else if x < 0.93 then 600
  else 600

/-- Piecewise-constant closed form of `App.get_load_from_rpm` as a function
of the rounded multiple-of-20 index `k = pyRound (rpm / 20)`. -/
def AloadSpec (k : ℤ) : ℚ :=
  if 32 ≤ k then 1
  else if 31 ≤ k then 0.93
  else if 30 ≤ k then 0.89
  else if 29 ≤ k then 0.86
  else if 28 ≤ k then 0.81
  else if 27 ≤ k then 0.77
  else if 26 ≤ k then 0.74
  else if 25 ≤ k then 0.69
  else if 24 ≤ k then 0.66
  else if 23 ≤ k then 0.62
  else 0.62

/-- Placeholder plan row used only as the default of `List.getD`. -/
def dpDefault : DayPlan :=
  { date := "", loading := 0, daily_demand := 0, start_capacity := 0, mode := "",
    valley_rpm := 0, flat_rpm := 0, peak_rpm := 0, flat_load_rate := 0,
    peak_load_rate := 0, estimated_output := 0, capacity_change := 0,
    end_capacity := 0, refill_flag := "", capacity_alert := "" }

/-- Placeholder record used only as the default of `List.getD`. -/
def dayDefault : DayRaw :=
  { loading := 0, daily_demand := 0, start_capacity := 0, mode := "",
    valley_rpm := 0, flat_rpm := 0, peak_rpm := 0, flat_load_rate := 0,
    peak_load_rate := 0, estimated_output := 0, capacity_change := 0,
    end_capacity := 0, refill_flag := "", capacity_alert := "" }

/-- The speed table of `compressor_optimizer.py` with speeds as rationals,
for stating the "largest tabulated speed that is `<=` the rounded rpm"
reading of the reverse lookup against that file's table. -/
def OspeedTbl : List (ℚ × ℚ) := Optimizer.rpm_load_map.map (fun p => ((p.1 : ℚ), p.2))

/-- Mode labels: 单机 = single machine, 双机 = dual machine,
双机补库 = dual machine refill. -/
theorem ne_dual_single : ¬ ("双机" : String) = "单机" := by decide

theorem ne_refill_single : ¬ ("双机补库" : String) = "单机" := by decide

theorem ne_single_refill : ¬ ("单机" : String) = "双机补库" := by decide

theorem ne_dual_refill : ¬ ("双机" : String) = "双机补库" := by decide

/-! ### Generic lemmas about the loop helpers -/

theorem leFilter_append (l1 l2 : List ℚ) (x : ℚ) :
    leFilter (l1 ++ l2) x = leFilter l1 x ++ leFilter l2 x := by
  induction l1 with
  | nil => simp [leFilter]
  | cons h t ih =>
    by_cases hx : h ≤ x <;> simp [leFilter, hx, ih]

theorem leFilter_all (l : List ℚ) (x : ℚ) (h : ∀ a ∈ l, a ≤ x) :
    leFilter l x = l := by
  induction l with
  | nil => rfl
  | cons a t ih =>
    rw [leFilter, if_pos (h a (by simp)), ih (fun b hb => h b (by simp [hb]))]

theorem leFilter_none (l : List ℚ) (x : ℚ) (h : ∀ a ∈ l, ¬ a ≤ x) :
    leFilter l x = [] := by
  induction l with
  | nil => rfl
  | cons a t ih =>
    rw [leFilter, if_neg (h a (by simp)), ih (fun b hb => h b (by simp [hb]))]

theorem keepRatioLE_append (l1 l2 : List (ℤ × ℚ)) (x : ℚ) :
    keepRatioLE (l1 ++ l2) x = keepRatioLE l1 x ++ keepRatioLE l2 x := by
  induction l1 with
  | nil => simp [keepRatioLE]
  | cons h t ih =>
    obtain ⟨r, l⟩ := h
    by_cases hx : l ≤ x <;> simp [keepRatioLE, hx, ih]

theorem keepRatioLE_all (l : List (ℤ × ℚ)) (x : ℚ) (h : ∀ p ∈ l, p.2 ≤ x) :
    keepRatioLE l x = l := by
  induction l with
  | nil => rfl
  | cons a t ih =>
    obtain ⟨r, v⟩ := a
    rw [keepRatioLE, if_pos (h (r, v) (by simp)), ih (fun b hb => h b (by simp [hb]))]

theorem keepRatioLE_none (l : List (ℤ × ℚ)) (x : ℚ) (h : ∀ p ∈ l, ¬ p.2 ≤ x) :
    keepRatioLE l x = [] := by
  induction l with
  | nil => rfl
  | cons a t ih =>
    obtain ⟨r, v⟩ := a
    rw [keepRatioLE, if_neg (h (r, v) (by simp)), ih (fun b hb => h b (by simp [hb]))]

theorem keepLE_append {β : Type} (l1 l2 : List (ℚ × β)) (x : ℚ) :
    keepLE (l1 ++ l2) x = keepLE l1 x ++ keepLE l2 x := by
  induction l1 with
  | nil => simp [keepLE]
  | cons h t ih =>
    obtain ⟨k, v⟩ := h
    by_cases hx : k ≤ x <;> simp [keepLE, hx, ih]

theorem firstLEOpt_reverse {β : Type} (tbl : List (ℚ × β)) (x : ℚ) :
    firstLEOpt tbl.reverse x = ((keepLE tbl x).getLast?).map Prod.snd := by
  induction tbl using List.reverseRecOn with
  | nil => rfl
  | append_singleton ys y ih =>
    obtain ⟨k, v⟩ := y
    rw [List.reverse_append]
    by_cases hk : k ≤ x
    · simp only [List.reverse_singleton, List.singleton_append, List.nil_append, firstLEOpt,
        if_pos hk]
      have hkeep : keepLE (ys ++ [(k, v)]) x = keepLE ys x ++ [(k, v)] := by
        have : keepLE [(k, v)] x = [(k, v)] := by simp [keepLE, hk]
        rw [keepLE_append, this]
      rw [hkeep, List.getLast?_append_cons]
      rfl
    · simp only [List.reverse_singleton, List.singleton_append, List.nil_append, firstLEOpt,
        if_neg hk]
      have hkeep : keepLE (ys ++ [(k, v)]) x = keepLE ys x := by
        have : keepLE [(k, v)] x = ([] : List (ℚ × β)) := by simp [keepLE, hk]
        rw [keepLE_append, this, List.append_nil]
      rw [hkeep]
      exact ih

theorem firstLE_eq_opt {β : Type} (d : β) (l : List (ℚ × β)) (x : ℚ) :
    firstLE d l x = (firstLEOpt l x).getD d := by
  induction l with
  | nil => rfl
  | cons h t ih =>
    obtain ⟨k, v⟩ := h
    by_cases hx : k ≤ x <;> simp [firstLE, firstLEOpt, hx, ih]

theorem firstLE_reverse {β : Type} (d : β) (tbl : List (ℚ × β)) (x : ℚ) :
    firstLE d tbl.reverse x = (((keepLE tbl x).getLast?).map Prod.snd).getD d := by
  rw [firstLE_eq_opt, firstLEOpt_reverse]

/-! ### Lemmas about Python rounding -/

theorem pyRound_ge_floor (q : ℚ) : ⌊q⌋ ≤ pyRound q := by
  simp only [pyRound]
  split_ifs <;> omega

theorem pyRound_le_floor_add_one (q : ℚ) : pyRound q ≤ ⌊q⌋ + 1 := by
  simp only [pyRound]
  split_ifs <;> omega

theorem pyRound_mono {x y : ℚ} (h : x ≤ y) : pyRound x ≤ pyRound y := by
  rcases lt_or_le ⌊x⌋ ⌊y⌋ with hf | hf
  · calc pyRound x ≤ ⌊x⌋ + 1 := pyRound_le_floor_add_one x
    _ ≤ ⌊y⌋ := by omega
    _ ≤ pyRound y := pyRound_ge_floor y
  · have heq : ⌊x⌋ = ⌊y⌋ := le_antisymm (Int.floor_le_floor h) hf
    have hfr : x - (⌊x⌋ : ℚ) ≤ y - (⌊y⌋ : ℚ) := by
      rw [heq]
      linarith
    simp only [pyRound]
    rw [heq]
    split_ifs <;> first | omega | (exfalso; linarith)

/-! ### Closed forms of the two `get_rpm_from_load` implementations -/

set_option maxHeartbeats 1000000 in
/-- `compressor_optimizer.py`'s `get_rpm_from_load` as a piecewise-constant
function: interval analysis over the ten table entries. -/
theorem O_rpm_eq (x : ℚ) : Optimizer.get_rpm_from_load x = Ospec x := by
  simp only [Optimizer.get_rpm_from_load, Ospec, Optimizer.rpm_load_map, List.map_cons,
    List.map_nil]
  by_cases h1 : x ≤ 0.62
  · rw [if_pos h1, if_pos h1]
  rw [if_neg h1, if_neg h1]
  by_cases h2 : x ≥ 0.9965
  · rw [if_pos h2, if_pos h2]
  rw [if_neg h2, if_neg h2]
  have hx1 : (0.62 : ℚ) < x := not_le.mp h1
  have hx2 : x < 0.9965 := not_le.mp h2
  by_cases h3 : x < 0.659649122807018
  · rw [if_pos h3]
    have hf : leFilter [0.617543859649123, 0.659649122807018, 0.694736842105263, 0.736842105263158, 0.771929824561403, 0.814035087719298, 0.856140350877193, 0.891228070175439, 0.933333333333333, 0.996491228070175] x = [0.617543859649123] := by
      rw [show ([0.617543859649123, 0.659649122807018, 0.694736842105263, 0.736842105263158, 0.771929824561403, 0.814035087719298, 0.856140350877193, 0.891228070175439, 0.933333333333333, 0.996491228070175] : List ℚ) = [0.617543859649123] ++ [0.659649122807018, 0.694736842105263, 0.736842105263158, 0.771929824561403, 0.814035087719298, 0.856140350877193, 0.891228070175439, 0.933333333333333, 0.996491228070175] from rfl,
        leFilter_append,
        leFilter_all _ _ (by intro a ha; fin_cases ha <;> linarith),
        leFilter_none _ _ (by intro a ha; fin_cases ha <;> linarith),
        List.append_nil]
    rw [hf]
    norm_num [pymax, List.foldl, findClose, abs_lt]
  rw [if_neg h3]
  have g2 : (0.659649122807018 : ℚ) ≤ x := not_lt.mp h3
  by_cases h4 : x < 0.694736842105263
  · rw [if_pos h4]
    have hf : leFilter [0.617543859649123, 0.659649122807018, 0.694736842105263, 0.736842105263158, 0.771929824561403, 0.814035087719298, 0.856140350877193, 0.891228070175439, 0.933333333333333, 0.996491228070175] x = [0.617543859649123, 0.659649122807018] := by
      rw [show ([0.617543859649123, 0.659649122807018, 0.694736842105263, 0.736842105263158, 0.771929824561403, 0.814035087719298, 0.856140350877193, 0.891228070175439, 0.933333333333333, 0.996491228070175] : List ℚ) = [0.617543859649123, 0.659649122807018] ++ [0.694736842105263, 0.736842105263158, 0.771929824561403, 0.814035087719298, 0.856140350877193, 0.891228070175439, 0.933333333333333, 0.996491228070175] from rfl,
        leFilter_append,
        leFilter_all _ _ (by intro a ha; fin_cases ha <;> linarith),
        leFilter_none _ _ (by intro a ha; fin_cases ha <;> linarith),
        List.append_nil]
    rw [hf]
    norm_num [pymax, List.foldl, findClose, abs_lt]
  rw [if_neg h4]
  have g3 : (0.694736842105263 : ℚ) ≤ x := not_lt.mp h4
  by_cases h5 : x < 0.736842105263158
  · rw [if_pos h5]
    have hf : leFilter [0.617543859649123, 0.659649122807018, 0.694736842105263, 0.736842105263158, 0.771929824561403, 0.814035087719298, 0.856140350877193, 0.891228070175439, 0.933333333333333, 0.996491228070175] x = [0.617543859649123, 0.659649122807018, 0.694736842105263] := by
      rw [show ([0.617543859649123, 0.659649122807018, 0.694736842105263, 0.736842105263158, 0.771929824561403, 0.814035087719298, 0.856140350877193, 0.891228070175439, 0.933333333333333, 0.996491228070175] : List ℚ) = [0.617543859649123, 0.659649122807018, 0.694736842105263] ++ [0.736842105263158, 0.771929824561403, 0.814035087719298, 0.856140350877193, 0.891228070175439, 0.933333333333333, 0.996491228070175] from rfl,
        leFilter_append,
        leFilter_all _ _ (by intro a ha; fin_cases ha <;> linarith),
        leFilter_none _ _ (by intro a ha; fin_cases ha <;> linarith),
        List.append_nil]
    rw [hf]
    norm_num [pymax, List.foldl, findClose, abs_lt]
  rw [if_neg h5]
  have g4 : (0.736842105263158 : ℚ) ≤ x := not_lt.mp h5
  by_cases h6 : x < 0.771929824561403
  · rw [if_pos h6]
    have hf : leFilter [0.617543859649123, 0.659649122807018, 0.694736842105263, 0.736842105263158, 0.771929824561403, 0.814035087719298, 0.856140350877193, 0.891228070175439, 0.933333333333333, 0.996491228070175] x = [0.617543859649123, 0.659649122807018, 0.694736842105263, 0.736842105263158] := by
      rw [show ([0.617543859649123, 0.659649122807018, 0.694736842105263, 0.736842105263158, 0.771929824561403, 0.814035087719298, 0.856140350877193, 0.891228070175439, 0.933333333333333, 0.996491228070175] : List ℚ) = [0.617543859649123, 0.659649122807018, 0.694736842105263, 0.736842105263158] ++ [0.771929824561403, 0.814035087719298, 0.856140350877193, 0.891228070175439, 0.933333333333333, 0.996491228070175] from rfl,
        leFilter_append,
        leFilter_all _ _ (by intro a ha; fin_cases ha <;> linarith),
        leFilter_none _ _ (by intro a ha; fin_cases ha <;> linarith),
        List.append_nil]
    rw [hf]
    norm_num [pymax, List.foldl, findClose, abs_lt]
  rw [if_neg h6]
  have g5 : (0.771929824561403 : ℚ) ≤ x := not_lt.mp h6
  by_cases h7 : x < 0.814035087719298
  · rw [if_pos h7]
    have hf : leFilter [0.617543859649123, 0.659649122807018, 0.694736842105263, 0.736842105263158, 0.771929824561403, 0.814035087719298, 0.856140350877193, 0.891228070175439, 0.933333333333333, 0.996491228070175] x = [0.617543859649123, 0.659649122807018, 0.694736842105263, 0.736842105263158, 0.771929824561403] := by
      rw [show ([0.617543859649123, 0.659649122807018, 0.694736842105263, 0.736842105263158, 0.771929824561403, 0.814035087719298, 0.856140350877193, 0.891228070175439, 0.933333333333333, 0.996491228070175] : List ℚ) = [0.617543859649123, 0.659649122807018, 0.694736842105263, 0.736842105263158, 0.771929824561403] ++ [0.814035087719298, 0.856140350877193, 0.891228070175439, 0.933333333333333, 0.996491228070175] from rfl,
        leFilter_append,
        leFilter_all _ _ (by intro a ha; fin_cases ha <;> linarith),
        leFilter_none _ _ (by intro a ha; fin_cases ha <;> linarith),
        List.append_nil]
    rw [hf]
    norm_num [pymax, List.foldl, findClose, abs_lt]
  rw [if_neg h7]
  have g6 : (0.814035087719298 : ℚ) ≤ x := not_lt.mp h7
  by_cases h8 : x < 0.856140350877193
  · rw [if_pos h8]
    have hf : leFilter [0.617543859649123, 0.659649122807018, 0.694736842105263, 0.736842105263158, 0.771929824561403, 0.814035087719298, 0.856140350877193, 0.891228070175439, 0.933333333333333, 0.996491228070175] x = [0.617543859649123, 0.659649122807018, 0.694736842105263, 0.736842105263158, 0.771929824561403, 0.814035087719298] := by
      rw [show ([0.617543859649123, 0.659649122807018, 0.694736842105263, 0.736842105263158, 0.771929824561403, 0.814035087719298, 0.856140350877193, 0.891228070175439, 0.933333333333333, 0.996491228070175] : List ℚ) = [0.617543859649123, 0.659649122807018, 0.694736842105263, 0.736842105263158, 0.771929824561403, 0.814035087719298] ++ [0.856140350877193, 0.891228070175439, 0.933333333333333, 0.996491228070175] from rfl,
        leFilter_append,
        leFilter_all _ _ (by intro a ha; fin_cases ha <;> linarith),
        leFilter_none _ _ (by intro a ha; fin_cases ha <;> linarith),
        List.append_nil]
    rw [hf]
    norm_num [pymax, List.foldl, findClose, abs_lt]
  rw [if_neg h8]
  have g7 : (0.856140350877193 : ℚ) ≤ x := not_lt.mp h8
  by_cases h9 : x < 0.891228070175439
  · rw [if_pos h9]
    have hf : leFilter [0.617543859649123, 0.659649122807018, 0.694736842105263, 0.736842105263158, 0.771929824561403, 0.814035087719298, 0.856140350877193, 0.891228070175439, 0.933333333333333, 0.996491228070175] x = [0.617543859649123, 0.659649122807018, 0.694736842105263, 0.736842105263158, 0.771929824561403, 0.814035087719298, 0.856140350877193] := by
      rw [show ([0.617543859649123, 0.659649122807018, 0.694736842105263, 0.736842105263158, 0.771929824561403, 0.814035087719298, 0.856140350877193, 0.891228070175439, 0.933333333333333, 0.996491228070175] : List ℚ) = [0.617543859649123, 0.659649122807018, 0.694736842105263, 0.736842105263158, 0.771929824561403, 0.814035087719298, 0.856140350877193] ++ [0.891228070175439, 0.933333333333333, 0.996491228070175] from rfl,
        leFilter_append,
        leFilter_all _ _ (by intro a ha; fin_cases ha <;> linarith),
        leFilter_none _ _ (by intro a ha; fin_cases ha <;> linarith),
        List.append_nil]
    rw [hf]
    norm_num [pymax, List.foldl, findClose, abs_lt]
  rw [if_neg h9]
  have g8 : (0.891228070175439 : ℚ) ≤ x := not_lt.mp h9
  by_cases h10 : x < 0.933333333333333
  · rw [if_pos h10]
    have hf : leFilter [0.617543859649123, 0.659649122807018, 0.694736842105263, 0.736842105263158, 0.771929824561403, 0.814035087719298, 0.856140350877193, 0.891228070175439, 0.933333333333333, 0.996491228070175] x = [0.617543859649123, 0.659649122807018, 0.694736842105263, 0.736842105263158, 0.771929824561403, 0.814035087719298, 0.856140350877193, 0.891228070175439] := by
      rw [show ([0.617543859649123, 0.659649122807018, 0.694736842105263, 0.736842105263158, 0.771929824561403, 0.814035087719298, 0.856140350877193, 0.891228070175439, 0.933333333333333, 0.996491228070175] : List ℚ) = [0.617543859649123, 0.659649122807018, 0.694736842105263, 0.736842105263158, 0.771929824561403, 0.814035087719298, 0.856140350877193, 0.891228070175439] ++ [0.933333333333333, 0.996491228070175] from rfl,
        leFilter_append,
        leFilter_all _ _ (by intro a ha; fin_cases ha <;> linarith),
        leFilter_none _ _ (by intro a ha; fin_cases ha <;> linarith),
        List.append_nil]
    rw [hf]
    norm_num [pymax, List.foldl, findClose, abs_lt]
  rw [if_neg h10]
  have g9 : (0.933333333333333 : ℚ) ≤ x := not_lt.mp h10
  by_cases h11 : x < 0.996491228070175
  · rw [if_pos h11]
    have hf : leFilter [0.617543859649123, 0.659649122807018, 0.694736842105263, 0.736842105263158, 0.771929824561403, 0.814035087719298, 0.856140350877193, 0.891228070175439, 0.933333333333333, 0.996491228070175] x = [0.617543859649123, 0.659649122807018, 0.694736842105263, 0.736842105263158, 0.771929824561403, 0.814035087719298, 0.856140350877193, 0.891228070175439, 0.933333333333333] := by
      rw [show ([0.617543859649123, 0.659649122807018, 0.694736842105263, 0.736842105263158, 0.771929824561403, 0.814035087719298, 0.856140350877193, 0.891228070175439, 0.933333333333333, 0.996491228070175] : List ℚ) = [0.617543859649123, 0.659649122807018, 0.694736842105263, 0.736842105263158, 0.771929824561403, 0.814035087719298, 0.856140350877193, 0.891228070175439, 0.933333333333333] ++ [0.996491228070175] from rfl,
        leFilter_append,
        leFilter_all _ _ (by intro a ha; fin_cases ha <;> linarith),
        leFilter_none _ _ (by intro a ha; fin_cases ha <;> linarith),
        List.append_nil]
    rw [hf]
    norm_num [pymax, List.foldl, findClose, abs_lt]
  rw [if_neg h11]
  have g10 : (0.996491228070175 : ℚ) ≤ x := not_lt.mp h11
  have hf : leFilter [0.617543859649123, 0.659649122807018, 0.694736842105263, 0.736842105263158, 0.771929824561403, 0.814035087719298, 0.856140350877193, 0.891228070175439, 0.933333333333333, 0.996491228070175] x = [0.617543859649123, 0.659649122807018, 0.694736842105263, 0.736842105263158, 0.771929824561403, 0.814035087719298, 0.856140350877193, 0.891228070175439, 0.933333333333333, 0.996491228070175] :=
    leFilter_all _ _ (by intro a ha; fin_cases ha <;> linarith)
  rw [hf]
  norm_num [pymax, List.foldl, findClose, abs_lt]

set_option maxHeartbeats 1000000 in
/-- On the middle range, the entry with the largest tabulated ratio `≤ x`
has the speed given by `Ospec`. -/
theorem O_spec_eq (x : ℚ) (hx1 : (0.62 : ℚ) < x) (hx2 : x < 0.9965) :
    ((specLastRatio Optimizer.rpm_load_map x).map Prod.fst).getD 450 = Ospec x := by
  simp only [specLastRatio, Optimizer.rpm_load_map, Ospec]
  rw [if_neg (by linarith), if_neg (show ¬ x ≥ 0.9965 by linarith)]
  by_cases h3 : x < 0.659649122807018
  · rw [if_pos h3]
    have hk : keepRatioLE [(450, 0.617543859649123), (470, 0.659649122807018), (490, 0.694736842105263), (510, 0.736842105263158), (530, 0.771929824561403), (550, 0.814035087719298), (570, 0.856140350877193), (590, 0.891228070175439), (610, 0.933333333333333), (630, 0.996491228070175)] x = [(450, 0.617543859649123)] := by
      rw [show ([(450, 0.617543859649123), (470, 0.659649122807018), (490, 0.694736842105263), (510, 0.736842105263158), (530, 0.771929824561403), (550, 0.814035087719298), (570, 0.856140350877193), (590, 0.891228070175439), (610, 0.933333333333333), (630, 0.996491228070175)] : List (ℤ × ℚ)) = [(450, 0.617543859649123)] ++ [(470, 0.659649122807018), (490, 0.694736842105263), (510, 0.736842105263158), (530, 0.771929824561403), (550, 0.814035087719298), (570, 0.856140350877193), (590, 0.891228070175439), (610, 0.933333333333333), (630, 0.996491228070175)] from rfl,
        keepRatioLE_append,
        keepRatioLE_all _ _ (by intro p hp; fin_cases hp <;> dsimp only <;> linarith),
        keepRatioLE_none _ _ (by intro p hp; fin_cases hp <;> dsimp only <;> linarith),
        List.append_nil]
    rw [hk]
    rfl
  rw [if_neg h3]
  have g2 : (0.659649122807018 : ℚ) ≤ x := not_lt.mp h3
  by_cases h4 : x < 0.694736842105263
  · rw [if_pos h4]
    have hk : keepRatioLE [(450, 0.617543859649123), (470, 0.659649122807018), (490, 0.694736842105263), (510, 0.736842105263158), (530, 0.771929824561403), (550, 0.814035087719298), (570, 0.856140350877193), (590, 0.891228070175439), (610, 0.933333333333333), (630, 0.996491228070175)] x = [(450, 0.617543859649123), (470, 0.659649122807018)] := by
      rw [show ([(450, 0.617543859649123), (470, 0.659649122807018), (490, 0.694736842105263), (510, 0.736842105263158), (530, 0.771929824561403), (550, 0.814035087719298), (570, 0.856140350877193), (590, 0.891228070175439), (610, 0.933333333333333), (630, 0.996491228070175)] : List (ℤ × ℚ)) = [(450, 0.617543859649123), (470, 0.659649122807018)] ++ [(490, 0.694736842105263), (510, 0.736842105263158), (530, 0.771929824561403), (550, 0.814035087719298), (570, 0.856140350877193), (590, 0.891228070175439), (610, 0.933333333333333), (630, 0.996491228070175)] from rfl,
        keepRatioLE_append,
        keepRatioLE_all _ _ (by intro p hp; fin_cases hp <;> dsimp only <;> linarith),
        keepRatioLE_none _ _ (by intro p hp; fin_cases hp <;> dsimp only <;> linarith),
        List.append_nil]
    rw [hk]
    rfl
  rw [if_neg h4]
  have g3 : (0.694736842105263 : ℚ) ≤ x := not_lt.mp h4
  by_cases h5 : x < 0.736842105263158
  · rw [if_pos h5]
    have hk : keepRatioLE [(450, 0.617543859649123), (470, 0.659649122807018), (490, 0.694736842105263), (510, 0.736842105263158), (530, 0.771929824561403), (550, 0.814035087719298), (570, 0.856140350877193), (590, 0.891228070175439), (610, 0.933333333333333), (630, 0.996491228070175)] x = [(450, 0.617543859649123), (470, 0.659649122807018), (490, 0.694736842105263)] := by
      rw [show ([(450, 0.617543859649123), (470, 0.659649122807018), (490, 0.694736842105263), (510, 0.736842105263158), (530, 0.771929824561403), (550, 0.814035087719298), (570, 0.856140350877193), (590, 0.891228070175439), (610, 0.933333333333333), (630, 0.996491228070175)] : List (ℤ × ℚ)) = [(450, 0.617543859649123), (470, 0.659649122807018), (490, 0.694736842105263)] ++ [(510, 0.736842105263158), (530, 0.771929824561403), (550, 0.814035087719298), (570, 0.856140350877193), (590, 0.891228070175439), (610, 0.933333333333333), (630, 0.996491228070175)] from rfl,
        keepRatioLE_append,
        keepRatioLE_all _ _ (by intro p hp; fin_cases hp <;> dsimp only <;> linarith),
        keepRatioLE_none _ _ (by intro p hp; fin_cases hp <;> dsimp only <;> linarith),
        List.append_nil]
    rw [hk]
    rfl
  rw [if_neg h5]
  have g4 : (0.736842105263158 : ℚ) ≤ x := not_lt.mp h5
  by_cases h6 : x < 0.771929824561403
  · rw [if_pos h6]
    have hk : keepRatioLE [(450, 0.617543859649123), (470, 0.659649122807018), (490, 0.694736842105263), (510, 0.736842105263158), (530, 0.771929824561403), (550, 0.814035087719298), (570, 0.856140350877193), (590, 0.891228070175439), (610, 0.933333333333333), (630, 0.996491228070175)] x = [(450, 0.617543859649123), (470, 0.659649122807018), (490, 0.694736842105263), (510, 0.736842105263158)] := by
      rw [show ([(450, 0.617543859649123), (470, 0.659649122807018), (490, 0.694736842105263), (510, 0.736842105263158), (530, 0.771929824561403), (550, 0.814035087719298), (570, 0.856140350877193), (590, 0.891228070175439), (610, 0.933333333333333), (630, 0.996491228070175)] : List (ℤ × ℚ)) = [(450, 0.617543859649123), (470, 0.659649122807018), (490, 0.694736842105263), (510, 0.736842105263158)] ++ [(530, 0.771929824561403), (550, 0.814035087719298), (570, 0.856140350877193), (590, 0.891228070175439), (610, 0.933333333333333), (630, 0.996491228070175)] from rfl,
        keepRatioLE_append,
        keepRatioLE_all _ _ (by intro p hp; fin_cases hp <;> dsimp only <;> linarith),
        keepRatioLE_none _ _ (by intro p hp; fin_cases hp <;> dsimp only <;> linarith),
        List.append_nil]
    rw [hk]
    rfl
  rw [if_neg h6]
  have g5 : (0.771929824561403 : ℚ) ≤ x := not_lt.mp h6
  by_cases h7 : x < 0.814035087719298
  · rw [if_pos h7]
    have hk : keepRatioLE [(450, 0.617543859649123), (470, 0.659649122807018), (490, 0.694736842105263), (510, 0.736842105263158), (530, 0.771929824561403), (550, 0.814035087719298), (570, 0.856140350877193), (590, 0.891228070175439), (610, 0.933333333333333), (630, 0.996491228070175)] x = [(450, 0.617543859649123), (470, 0.659649122807018), (490, 0.694736842105263), (510, 0.736842105263158), (530, 0.771929824561403)] := by
      rw [show ([(450, 0.617543859649123), (470, 0.659649122807018), (490, 0.694736842105263), (510, 0.736842105263158), (530, 0.771929824561403), (550, 0.814035087719298), (570, 0.856140350877193), (590, 0.891228070175439), (610, 0.933333333333333), (630, 0.996491228070175)] : List (ℤ × ℚ)) = [(450, 0.617543859649123), (470, 0.659649122807018), (490, 0.694736842105263), (510, 0.736842105263158), (530, 0.771929824561403)] ++ [(550, 0.814035087719298), (570, 0.856140350877193), (590, 0.891228070175439), (610, 0.933333333333333), (630, 0.996491228070175)] from rfl,
        keepRatioLE_append,
        keepRatioLE_all _ _ (by intro p hp; fin_cases hp <;> dsimp only <;> linarith),
        keepRatioLE_none _ _ (by intro p hp; fin_cases hp <;> dsimp only <;> linarith),
        List.append_nil]
    rw [hk]
    rfl
  rw [if_neg h7]
  have g6 : (0.814035087719298 : ℚ) ≤ x := not_lt.mp h7
  by_cases h8 : x < 0.856140350877193
  · rw [if_pos h8]
    have hk : keepRatioLE [(450, 0.617543859649123), (470, 0.659649122807018), (490, 0.694736842105263), (510, 0.736842105263158), (530, 0.771929824561403), (550, 0.814035087719298), (570, 0.856140350877193), (590, 0.891228070175439), (610, 0.933333333333333), (630, 0.996491228070175)] x = [(450, 0.617543859649123), (470, 0.659649122807018), (490, 0.694736842105263), (510, 0.736842105263158), (530, 0.771929824561403), (550, 0.814035087719298)] := by
      rw [show ([(450, 0.617543859649123), (470, 0.659649122807018), (490, 0.694736842105263), (510, 0.736842105263158), (530, 0.771929824561403), (550, 0.814035087719298), (570, 0.856140350877193), (590, 0.891228070175439), (610, 0.933333333333333), (630, 0.996491228070175)] : List (ℤ × ℚ)) = [(450, 0.617543859649123), (470, 0.659649122807018), (490, 0.694736842105263), (510, 0.736842105263158), (530, 0.771929824561403), (550, 0.814035087719298)] ++ [(570, 0.856140350877193), (590, 0.891228070175439), (610, 0.933333333333333), (630, 0.996491228070175)] from rfl,
        keepRatioLE_append,
        keepRatioLE_all _ _ (by intro p hp; fin_cases hp <;> dsimp only <;> linarith),
        keepRatioLE_none _ _ (by intro p hp; fin_cases hp <;> dsimp only <;> linarith),
        List.append_nil]
    rw [hk]
    rfl
  rw [if_neg h8]
  have g7 : (0.856140350877193 : ℚ) ≤ x := not_lt.mp h8
  by_cases h9 : x < 0.891228070175439
  · rw [if_pos h9]
    have hk : keepRatioLE [(450, 0.617543859649123), (470, 0.659649122807018), (490, 0.694736842105263), (510, 0.736842105263158), (530, 0.771929824561403), (550, 0.814035087719298), (570, 0.856140350877193), (590, 0.891228070175439), (610, 0.933333333333333), (630, 0.996491228070175)] x = [(450, 0.617543859649123), (470, 0.659649122807018), (490, 0.694736842105263), (510, 0.736842105263158), (530, 0.771929824561403), (550, 0.814035087719298), (570, 0.856140350877193)] := by
      rw [show ([(450, 0.617543859649123), (470, 0.659649122807018), (490, 0.694736842105263), (510, 0.736842105263158), (530, 0.771929824561403), (550, 0.814035087719298), (570, 0.856140350877193), (590, 0.891228070175439), (610, 0.933333333333333), (630, 0.996491228070175)] : List (ℤ × ℚ)) = [(450, 0.617543859649123), (470, 0.659649122807018), (490, 0.694736842105263), (510, 0.736842105263158), (530, 0.771929824561403), (550, 0.814035087719298), (570, 0.856140350877193)] ++ [(590, 0.891228070175439), (610, 0.933333333333333), (630, 0.996491228070175)] from rfl,
        keepRatioLE_append,
        keepRatioLE_all _ _ (by intro p hp; fin_cases hp <;> dsimp only <;> linarith),
        keepRatioLE_none _ _ (by intro p hp; fin_cases hp <;> dsimp only <;> linarith),
        List.append_nil]
    rw [hk]
    rfl
  rw [if_neg h9]
  have g8 : (0.891228070175439 : ℚ) ≤ x := not_lt.mp h9
  by_cases h10 : x < 0.933333333333333
  · rw [if_pos h10]
    have hk : keepRatioLE [(450, 0.617543859649123), (470, 0.659649122807018), (490, 0.694736842105263), (510, 0.736842105263158), (530, 0.771929824561403), (550, 0.814035087719298), (570, 0.856140350877193), (590, 0.891228070175439), (610, 0.933333333333333), (630, 0.996491228070175)] x = [(450, 0.617543859649123), (470, 0.659649122807018), (490, 0.694736842105263), (510, 0.736842105263158), (530, 0.771929824561403), (550, 0.814035087719298), (570, 0.856140350877193), (590, 0.891228070175439)] := by
      rw [show ([(450, 0.617543859649123), (470, 0.659649122807018), (490, 0.694736842105263), (510, 0.736842105263158), (530, 0.771929824561403), (550, 0.814035087719298), (570, 0.856140350877193), (590, 0.891228070175439), (610, 0.933333333333333), (630, 0.996491228070175)] : List (ℤ × ℚ)) = [(450, 0.617543859649123), (470, 0.659649122807018), (490, 0.694736842105263), (510, 0.736842105263158), (530, 0.771929824561403), (550, 0.814035087719298), (570, 0.856140350877193), (590, 0.891228070175439)] ++ [(610, 0.933333333333333), (630, 0.996491228070175)] from rfl,
        keepRatioLE_append,
        keepRatioLE_all _ _ (by intro p hp; fin_cases hp <;> dsimp only <;> linarith),
        keepRatioLE_none _ _ (by intro p hp; fin_cases hp <;> dsimp only <;> linarith),
        List.append_nil]
    rw [hk]
    rfl
  rw [if_neg h10]
  have g9 : (0.933333333333333 : ℚ) ≤ x := not_lt.mp h10
  by_cases h11 : x < 0.996491228070175
  · rw [if_pos h11]
    have hk : keepRatioLE [(450, 0.617543859649123), (470, 0.659649122807018), (490, 0.694736842105263), (510, 0.736842105263158), (530, 0.771929824561403), (550, 0.814035087719298), (570, 0.856140350877193), (590, 0.891228070175439), (610, 0.933333333333333), (630, 0.996491228070175)] x = [(450, 0.617543859649123), (470, 0.659649122807018), (490, 0.694736842105263), (510, 0.736842105263158), (530, 0.771929824561403), (550, 0.814035087719298), (570, 0.856140350877193), (590, 0.891228070175439), (610, 0.933333333333333)] := by
      rw [show ([(450, 0.617543859649123), (470, 0.659649122807018), (490, 0.694736842105263), (510, 0.736842105263158), (530, 0.771929824561403), (550, 0.814035087719298), (570, 0.856140350877193), (590, 0.891228070175439), (610, 0.933333333333333), (630, 0.996491228070175)] : List (ℤ × ℚ)) = [(450, 0.617543859649123), (470, 0.659649122807018), (490, 0.694736842105263), (510, 0.736842105263158), (530, 0.771929824561403), (550, 0.814035087719298), (570, 0.856140350877193), (590, 0.891228070175439), (610, 0.933333333333333)] ++ [(630, 0.996491228070175)] from rfl,
        keepRatioLE_append,
        keepRatioLE_all _ _ (by intro p hp; fin_cases hp <;> dsimp only <;> linarith),
        keepRatioLE_none _ _ (by intro p hp; fin_cases hp <;> dsimp only <;> linarith),
        List.append_nil]
    rw [hk]
    rfl
  rw [if_neg h11]
  have g10 : (0.996491228070175 : ℚ) ≤ x := not_lt.mp h11
  have hk : keepRatioLE [(450, 0.617543859649123), (470, 0.659649122807018), (490, 0.694736842105263), (510, 0.736842105263158), (530, 0.771929824561403), (550, 0.814035087719298), (570, 0.856140350877193), (590, 0.891228070175439), (610, 0.933333333333333), (630, 0.996491228070175)] x = [(450, 0.617543859649123), (470, 0.659649122807018), (490, 0.694736842105263), (510, 0.736842105263158), (530, 0.771929824561403), (550, 0.814035087719298), (570, 0.856140350877193), (590, 0.891228070175439), (610, 0.933333333333333), (630, 0.996491228070175)] :=
    keepRatioLE_all _ _ (by intro p hp; fin_cases hp <;> dsimp only <;> linarith)
  rw [hk]
  rfl

set_option maxHeartbeats 1000000 in
/-- `app.py`'s `get_rpm_from_load` as a piecewise-constant function. -/
theorem A_rpm_eq (x : ℚ) : App.get_rpm_from_load x = Aspec x := by
  simp only [App.get_rpm_from_load, Aspec]
  by_cases h1 : x ≤ 0.62
  · rw [if_pos h1, if_pos h1]
  rw [if_neg h1, if_neg h1]
  by_cases h2 : x ≥ 0.9965
  · rw [if_pos h2, if_pos h2]
  rw [if_neg h2, if_neg h2]
  have hx1 : (0.62 : ℚ) < x := not_le.mp h1
  have hx2 : x < 0.9965 := not_le.mp h2
  rw [show App.loadTbl.reverse = [(1, 630), (0.93, 610), (0.89, 590), (0.86, 570), (0.81, 550), (0.77, 530), (0.74, 510), (0.69, 490), (0.66, 470), (0.62, 450)] from rfl]
  simp only [firstLEOpt]
  by_cases h3 : x < 0.66
  · rw [if_pos h3]
    rw [if_neg (by linarith), if_neg (by linarith), if_neg (by linarith), if_neg (by linarith), if_neg (by linarith), if_neg (by linarith), if_neg (by linarith), if_neg (by linarith), if_neg (by linarith), if_pos (by linarith)]
    norm_num [pyRound]
  rw [if_neg h3]
  have g2 : (0.66 : ℚ) ≤ x := not_lt.mp h3
  by_cases h4 : x < 0.69
  · rw [if_pos h4]
    rw [if_neg (by linarith), if_neg (by linarith), if_neg (by linarith), if_neg (by linarith), if_neg (by linarith), if_neg (by linarith), if_neg (by linarith), if_neg (by linarith), if_pos (by linarith)]
    norm_num [pyRound]
  rw [if_neg h4]
  have g3 : (0.69 : ℚ) ≤ x := not_lt.mp h4
  by_cases h5 : x < 0.74
  · rw [if_pos h5]
    rw [if_neg (by linarith), if_neg (by linarith), if_neg (by linarith), if_neg (by linarith), if_neg (by linarith), if_neg (by linarith), if_neg (by linarith), if_pos (by linarith)]
    norm_num [pyRound]
  rw [if_neg h5]
  have g4 : (0.74 : ℚ) ≤ x := not_lt.mp h5
  by_cases h6 : x < 0.77
  · rw [if_pos h6]
    rw [if_neg (by linarith), if_neg (by linarith), if_neg (by linarith), if_neg (by linarith), if_neg (by linarith), if_neg (by linarith), if_pos (by linarith)]
    norm_num [pyRound]
  rw [if_neg h6]
  have g5 : (0.77 : ℚ) ≤ x := not_lt.mp h6
  by_cases h7 : x < 0.81
  · rw [if_pos h7]
    rw [if_neg (by linarith), if_neg (by linarith), if_neg (by linarith), if_neg (by linarith), if_neg (by linarith), if_pos (by linarith)]
    norm_num [pyRound]
  rw [if_neg h7]
  have g6 : (0.81 : ℚ) ≤ x := not_lt.mp h7
  by_cases h8 : x < 0.86
  · rw [if_pos h8]
    rw [if_neg (by linarith), if_neg (by linarith), if_neg (by linarith), if_neg (by linarith), if_pos (by linarith)]
    norm_num [pyRound]
  rw [if_neg h8]
  have g7 : (0.86 : ℚ) ≤ x := not_lt.mp h8
  by_cases h9 : x < 0.89
  · rw [if_pos h9]
    rw [if_neg (by linarith), if_neg (by linarith), if_neg (by linarith), if_pos (by linarith)]
    norm_num [pyRound]
  rw [if_neg h9]
  have g8 : (0.89 : ℚ) ≤ x := not_lt.mp h9
  by_cases h10 : x < 0.93
  · rw [if_pos h10]
    rw [if_neg (by linarith), if_neg (by linarith), if_pos (by linarith)]
    norm_num [pyRound]
  rw [if_neg h10]
  have g9 : (0.93 : ℚ) ≤ x := not_lt.mp h10
  rw [if_neg (by linarith), if_pos (by linarith)]
  norm_num [pyRound]

theorem cast_le_mul20 (c : ℚ) (k : ℤ) : c ≤ ((k * 20 : ℤ) : ℚ) ↔ ⌈c / 20⌉ ≤ k := by
  rw [Int.ceil_le, div_le_iff (by norm_num : (0:ℚ) < 20)]
  push_cast
  constructor <;> intro h <;> linarith

/-- `app.py`'s `get_load_from_rpm` as a piecewise-constant function of the
rounded multiple-of-20 index. -/
theorem A_load_eq (r : ℚ) : App.get_load_from_rpm r = AloadSpec (pyRound (r / 20)) := by
  simp only [App.get_load_from_rpm, AloadSpec]
  rw [show App.speedTbl.reverse = [(630, 1), (610, 0.93), (590, 0.89), (570, 0.86),
    (550, 0.81), (530, 0.77), (510, 0.74), (490, 0.69), (470, 0.66), (450, 0.62)] from rfl]
  simp only [firstLE, cast_le_mul20]
  norm_num
  rw [show (⌈(63 : ℚ)/2⌉ : ℤ) = 32 from by norm_num [Int.ceil_eq_iff],
    show (⌈(61 : ℚ)/2⌉ : ℤ) = 31 from by norm_num [Int.ceil_eq_iff],
    show (⌈(59 : ℚ)/2⌉ : ℤ) = 30 from by norm_num [Int.ceil_eq_iff],
    show (⌈(57 : ℚ)/2⌉ : ℤ) = 29 from by norm_num [Int.ceil_eq_iff],
    show (⌈(55 : ℚ)/2⌉ : ℤ) = 28 from by norm_num [Int.ceil_eq_iff],
    show (⌈(53 : ℚ)/2⌉ : ℤ) = 27 from by norm_num [Int.ceil_eq_iff],
    show (⌈(51 : ℚ)/2⌉ : ℤ) = 26 from by norm_num [Int.ceil_eq_iff],
    show (⌈(49 : ℚ)/2⌉ : ℤ) = 25 from by norm_num [Int.ceil_eq_iff],
    show (⌈(47 : ℚ)/2⌉ : ℤ) = 24 from by norm_num [Int.ceil_eq_iff]]


/-! ### Monotonicity of the lookup closed forms -/

theorem Ospec_ge_min (y : ℚ) : 450 ≤ Ospec y := by
  unfold Ospec
  by_cases b1 : y ≤ 0.62
  · rw [if_pos b1]
  rw [if_neg b1]
  by_cases b2 : y ≥ 0.9965
  · rw [if_pos b2] <;> norm_num
  rw [if_neg b2]
  by_cases m1 : y < 0.659649122807018
  · rw [if_pos m1] <;> norm_num
  rw [if_neg m1]
  by_cases m2 : y < 0.694736842105263
  · rw [if_pos m2] <;> norm_num
  rw [if_neg m2]
  by_cases m3 : y < 0.736842105263158
  · rw [if_pos m3] <;> norm_num
  rw [if_neg m3]
  by_cases m4 : y < 0.771929824561403
  · rw [if_pos m4] <;> norm_num
  rw [if_neg m4]
  by_cases m5 : y < 0.814035087719298
  · rw [if_pos m5] <;> norm_num
  rw [if_neg m5]
  by_cases m6 : y < 0.856140350877193
  · rw [if_pos m6] <;> norm_num
  rw [if_neg m6]
  by_cases m7 : y < 0.891228070175439
  · rw [if_pos m7] <;> norm_num
  rw [if_neg m7]
  by_cases m8 : y < 0.933333333333333
  · rw [if_pos m8] <;> norm_num
  rw [if_neg m8]
  by_cases m9 : y < 0.996491228070175
  · rw [if_pos m9] <;> norm_num
  rw [if_neg m9]
  all_goals norm_num

theorem Ospec_lb_top (y : ℚ) (hy : (0.9965 : ℚ) ≤ y) : 630 ≤ Ospec y := by
  unfold Ospec
  rw [if_neg (by linarith), if_pos (show y ≥ 0.9965 from hy)]

theorem Ospec_lb_2 (y : ℚ) (hy : (0.659649122807018 : ℚ) ≤ y) : 470 ≤ Ospec y := by
  unfold Ospec
  rw [if_neg (by linarith)]
  by_cases b2 : y ≥ 0.9965
  · rw [if_pos b2] <;> norm_num
  rw [if_neg b2]
  rw [if_neg (by linarith)]
  by_cases m2 : y < 0.694736842105263
  · rw [if_pos m2] <;> norm_num
  rw [if_neg m2]
  by_cases m3 : y < 0.736842105263158
  · rw [if_pos m3] <;> norm_num
  rw [if_neg m3]
  by_cases m4 : y < 0.771929824561403
  · rw [if_pos m4] <;> norm_num
  rw [if_neg m4]
  by_cases m5 : y < 0.814035087719298
  · rw [if_pos m5] <;> norm_num
  rw [if_neg m5]
  by_cases m6 : y < 0.856140350877193
  · rw [if_pos m6] <;> norm_num
  rw [if_neg m6]
  by_cases m7 : y < 0.891228070175439
  · rw [if_pos m7] <;> norm_num
  rw [if_neg m7]
  by_cases m8 : y < 0.933333333333333
  · rw [if_pos m8] <;> norm_num
  rw [if_neg m8]
  by_cases m9 : y < 0.996491228070175
  · rw [if_pos m9] <;> norm_num
  rw [if_neg m9]
  all_goals norm_num

theorem Ospec_lb_3 (y : ℚ) (hy : (0.694736842105263 : ℚ) ≤ y) : 490 ≤ Ospec y := by
  unfold Ospec
  rw [if_neg (by linarith)]
  by_cases b2 : y ≥ 0.9965
  · rw [if_pos b2] <;> norm_num
  rw [if_neg b2]
  rw [if_neg (by linarith)]
  rw [if_neg (by linarith)]
  by_cases m3 : y < 0.736842105263158
  · rw [if_pos m3] <;> norm_num
  rw [if_neg m3]
  by_cases m4 : y < 0.771929824561403
  · rw [if_pos m4] <;> norm_num
  rw [if_neg m4]
  by_cases m5 : y < 0.814035087719298
  · rw [if_pos m5] <;> norm_num
  rw [if_neg m5]
  by_cases m6 : y < 0.856140350877193
  · rw [if_pos m6] <;> norm_num
  rw [if_neg m6]
  by_cases m7 : y < 0.891228070175439
  · rw [if_pos m7] <;> norm_num
  rw [if_neg m7]
  by_cases m8 : y < 0.933333333333333
  · rw [if_pos m8] <;> norm_num
  rw [if_neg m8]
  by_cases m9 : y < 0.996491228070175
  · rw [if_pos m9] <;> norm_num
  rw [if_neg m9]
  all_goals norm_num

theorem Ospec_lb_4 (y : ℚ) (hy : (0.736842105263158 : ℚ) ≤ y) : 510 ≤ Ospec y := by
  unfold Ospec
  rw [if_neg (by linarith)]
  by_cases b2 : y ≥ 0.9965
  · rw [if_pos b2] <;> norm_num
  rw [if_neg b2]
  rw [if_neg (by linarith)]
  rw [if_neg (by linarith)]
  rw [if_neg (by linarith)]
  by_cases m4 : y < 0.771929824561403
  · rw [if_pos m4] <;> norm_num
  rw [if_neg m4]
  by_cases m5 : y < 0.814035087719298
  · rw [if_pos m5] <;> norm_num
  rw [if_neg m5]
  by_cases m6 : y < 0.856140350877193
  · rw [if_pos m6] <;> norm_num
  rw [if_neg m6]
  by_cases m7 : y < 0.891228070175439
  · rw [if_pos m7] <;> norm_num
  rw [if_neg m7]
  by_cases m8 : y < 0.933333333333333
  · rw [if_pos m8] <;> norm_num
  rw [if_neg m8]
  by_cases m9 : y < 0.996491228070175
  · rw [if_pos m9] <;> norm_num
  rw [if_neg m9]
  all_goals norm_num

theorem Ospec_lb_5 (y : ℚ) (hy : (0.771929824561403 : ℚ) ≤ y) : 530 ≤ Ospec y := by
  unfold Ospec
  rw [if_neg (by linarith)]
  by_cases b2 : y ≥ 0.9965
  · rw [if_pos b2] <;> norm_num
  rw [if_neg b2]
  rw [if_neg (by linarith)]
  rw [if_neg (by linarith)]
  rw [if_neg (by linarith)]
  rw [if_neg (by linarith)]
  by_cases m5 : y < 0.814035087719298
  · rw [if_pos m5] <;> norm_num
  rw [if_neg m5]
  by_cases m6 : y < 0.856140350877193
  · rw [if_pos m6] <;> norm_num
  rw [if_neg m6]
  by_cases m7 : y < 0.891228070175439
  · rw [if_pos m7] <;> norm_num
  rw [if_neg m7]
  by_cases m8 : y < 0.933333333333333
  · rw [if_pos m8] <;> norm_num
  rw [if_neg m8]
  by_cases m9 : y < 0.996491228070175
  · rw [if_pos m9] <;> norm_num
  rw [if_neg m9]
  all_goals norm_num

theorem Ospec_lb_6 (y : ℚ) (hy : (0.814035087719298 : ℚ) ≤ y) : 550 ≤ Ospec y := by
  unfold Ospec
  rw [if_neg (by linarith)]
  by_cases b2 : y ≥ 0.9965
  · rw [if_pos b2] <;> norm_num
  rw [if_neg b2]
  rw [if_neg (by linarith)]
  rw [if_neg (by linarith)]
  rw [if_neg (by linarith)]
  rw [if_neg (by linarith)]
  rw [if_neg (by linarith)]
  by_cases m6 : y < 0.856140350877193
  · rw [if_pos m6] <;> norm_num
  rw [if_neg m6]
  by_cases m7 : y < 0.891228070175439
  · rw [if_pos m7] <;> norm_num
  rw [if_neg m7]
  by_cases m8 : y < 0.933333333333333
  · rw [if_pos m8] <;> norm_num
  rw [if_neg m8]
  by_cases m9 : y < 0.996491228070175
  · rw [if_pos m9] <;> norm_num
  rw [if_neg m9]
  all_goals norm_num

theorem Ospec_lb_7 (y : ℚ) (hy : (0.856140350877193 : ℚ) ≤ y) : 570 ≤ Ospec y := by
  unfold Ospec
  rw [if_neg (by linarith)]
  by_cases b2 : y ≥ 0.9965
  · rw [if_pos b2] <;> norm_num
  rw [if_neg b2]
  rw [if_neg (by linarith)]
  rw [if_neg (by linarith)]
  rw [if_neg (by linarith)]
  rw [if_neg (by linarith)]
  rw [if_neg (by linarith)]
  rw [if_neg (by linarith)]
  by_cases m7 : y < 0.891228070175439
  · rw [if_pos m7] <;> norm_num
  rw [if_neg m7]
  by_cases m8 : y < 0.933333333333333
  · rw [if_pos m8] <;> norm_num
  rw [if_neg m8]
  by_cases m9 : y < 0.996491228070175
  · rw [if_pos m9] <;> norm_num
  rw [if_neg m9]
  all_goals norm_num

theorem Ospec_lb_8 (y : ℚ) (hy : (0.891228070175439 : ℚ) ≤ y) : 590 ≤ Ospec y := by
  unfold Ospec
  rw [if_neg (by linarith)]
  by_cases b2 : y ≥ 0.9965
  · rw [if_pos b2] <;> norm_num
  rw [if_neg b2]
  rw [if_neg (by linarith)]
  rw [if_neg (by linarith)]
  rw [if_neg (by linarith)]
  rw [if_neg (by linarith)]
  rw [if_neg (by linarith)]
  rw [if_neg (by linarith)]
  rw [if_neg (by linarith)]
  by_cases m8 : y < 0.933333333333333
  · rw [if_pos m8] <;> norm_num
  rw [if_neg m8]
  by_cases m9 : y < 0.996491228070175
  · rw [if_pos m9] <;> norm_num
  rw [if_neg m9]
  all_goals norm_num

theorem Ospec_lb_9 (y : ℚ) (hy : (0.933333333333333 : ℚ) ≤ y) : 610 ≤ Ospec y := by
  unfold Ospec
  rw [if_neg (by linarith)]
  by_cases b2 : y ≥ 0.9965
  · rw [if_pos b2] <;> norm_num
  rw [if_neg b2]
  rw [if_neg (by linarith)]
  rw [if_neg (by linarith)]
  rw [if_neg (by linarith)]
  rw [if_neg (by linarith)]
  rw [if_neg (by linarith)]
  rw [if_neg (by linarith)]
  rw [if_neg (by linarith)]
  rw [if_neg (by linarith)]
  by_cases m9 : y < 0.996491228070175
  · rw [if_pos m9] <;> norm_num
  rw [if_neg m9]
  all_goals norm_num

theorem Ospec_lb_10 (y : ℚ) (hy : (0.996491228070175 : ℚ) ≤ y) : 630 ≤ Ospec y := by
  unfold Ospec
  rw [if_neg (by linarith)]
  by_cases b2 : y ≥ 0.9965
  · rw [if_pos b2] <;> norm_num
  rw [if_neg b2]
  rw [if_neg (by linarith)]
  rw [if_neg (by linarith)]
  rw [if_neg (by linarith)]
  rw [if_neg (by linarith)]
  rw [if_neg (by linarith)]
  rw [if_neg (by linarith)]
  rw [if_neg (by linarith)]
  rw [if_neg (by linarith)]
  rw [if_neg (by linarith)]
  all_goals norm_num

theorem Ospec_mono {x y : ℚ} (h : x ≤ y) : Ospec x ≤ Ospec y := by
  by_cases c1 : x ≤ 0.62
  · rw [show Ospec x = 450 from by unfold Ospec; rw [if_pos c1]]
    exact Ospec_ge_min y
  by_cases c2 : x ≥ 0.9965
  · rw [show Ospec x = 630 from by unfold Ospec; rw [if_neg c1, if_pos c2]]
    exact Ospec_lb_top y (by linarith)
  by_cases c3 : x < 0.659649122807018
  · rw [show Ospec x = 450 from by unfold Ospec; rw [if_neg c1, if_neg c2, if_pos c3]]
    exact Ospec_ge_min y
  have g1 : (0.659649122807018 : ℚ) ≤ x := not_lt.mp c3
  by_cases c4 : x < 0.694736842105263
  · rw [show Ospec x = 470 from by unfold Ospec; rw [if_neg c1, if_neg c2, if_neg c3, if_pos c4]]
    exact Ospec_lb_2 y (by linarith)
  have g2 : (0.694736842105263 : ℚ) ≤ x := not_lt.mp c4
  by_cases c5 : x < 0.736842105263158
  · rw [show Ospec x = 490 from by unfold Ospec; rw [if_neg c1, if_neg c2, if_neg c3, if_neg c4, if_pos c5]]
    exact Ospec_lb_3 y (by linarith)
  have g3 : (0.736842105263158 : ℚ) ≤ x := not_lt.mp c5
  by_cases c6 : x < 0.771929824561403
  · rw [show Ospec x = 510 from by unfold Ospec; rw [if_neg c1, if_neg c2, if_neg c3, if_neg c4, if_neg c5, if_pos c6]]
    exact Ospec_lb_4 y (by linarith)
  have g4 : (0.771929824561403 : ℚ) ≤ x := not_lt.mp c6
  by_cases c7 : x < 0.814035087719298
  · rw [show Ospec x = 530 from by unfold Ospec; rw [if_neg c1, if_neg c2, if_neg c3, if_neg c4, if_neg c5, if_neg c6, if_pos c7]]
    exact Ospec_lb_5 y (by linarith)
  have g5 : (0.814035087719298 : ℚ) ≤ x := not_lt.mp c7
  by_cases c8 : x < 0.856140350877193
  · rw [show Ospec x = 550 from by unfold Ospec; rw [if_neg c1, if_neg c2, if_neg c3, if_neg c4, if_neg c5, if_neg c6, if_neg c7, if_pos c8]]
    exact Ospec_lb_6 y (by linarith)
  have g6 : (0.856140350877193 : ℚ) ≤ x := not_lt.mp c8
  by_cases c9 : x < 0.891228070175439
  · rw [show Ospec x = 570 from by unfold Ospec; rw [if_neg c1, if_neg c2, if_neg c3, if_neg c4, if_neg c5, if_neg c6, if_neg c7, if_neg c8, if_pos c9]]
    exact Ospec_lb_7 y (by linarith)
  have g7 : (0.891228070175439 : ℚ) ≤ x := not_lt.mp c9
  by_cases c10 : x < 0.933333333333333
  · rw [show Ospec x = 590 from by unfold Ospec; rw [if_neg c1, if_neg c2, if_neg c3, if_neg c4, if_neg c5, if_neg c6, if_neg c7, if_neg c8, if_neg c9, if_pos c10]]
    exact Ospec_lb_8 y (by linarith)
  have g8 : (0.933333333333333 : ℚ) ≤ x := not_lt.mp c10
  by_cases c11 : x < 0.996491228070175
  · rw [show Ospec x = 610 from by unfold Ospec; rw [if_neg c1, if_neg c2, if_neg c3, if_neg c4, if_neg c5, if_neg c6, if_neg c7, if_neg c8, if_neg c9, if_neg c10, if_pos c11]]
    exact Ospec_lb_9 y (by linarith)
  have g9 : (0.996491228070175 : ℚ) ≤ x := not_lt.mp c11
  rw [show Ospec x = 630 from by unfold Ospec; rw [if_neg c1, if_neg c2, if_neg c3, if_neg c4, if_neg c5, if_neg c6, if_neg c7, if_neg c8, if_neg c9, if_neg c10, if_neg c11]]
  exact Ospec_lb_10 y (by linarith)

theorem Aspec_ge_min (y : ℚ) : 450 ≤ Aspec y := by
  unfold Aspec
  by_cases b1 : y ≤ 0.62
  · rw [if_pos b1]
  rw [if_neg b1]
  by_cases b2 : y ≥ 0.9965
  · rw [if_pos b2] <;> norm_num
  rw [if_neg b2]
  by_cases m0 : y < 0.66
  · rw [if_pos m0] <;> norm_num
  rw [if_neg m0]
  by_cases m1 : y < 0.69
  · rw [if_pos m1] <;> norm_num
  rw [if_neg m1]
  by_cases m2 : y < 0.74
  · rw [if_pos m2] <;> norm_num
  rw [if_neg m2]
  by_cases m3 : y < 0.77
  · rw [if_pos m3] <;> norm_num
  rw [if_neg m3]
  by_cases m4 : y < 0.81
  · rw [if_pos m4] <;> norm_num
  rw [if_neg m4]
  by_cases m5 : y < 0.86
  · rw [if_pos m5] <;> norm_num
  rw [if_neg m5]
  by_cases m6 : y < 0.89
  · rw [if_pos m6] <;> norm_num
  rw [if_neg m6]
  by_cases m7 : y < 0.93
  · rw [if_pos m7] <;> norm_num
  rw [if_neg m7]
  all_goals norm_num

theorem Aspec_lb_top (y : ℚ) (hy : (0.9965 : ℚ) ≤ y) : 630 ≤ Aspec y := by
  unfold Aspec
  rw [if_neg (by linarith), if_pos (show y ≥ 0.9965 from hy)]

theorem Aspec_lb_2 (y : ℚ) (hy : (0.66 : ℚ) ≤ y) : 480 ≤ Aspec y := by
  unfold Aspec
  rw [if_neg (by linarith)]
  by_cases b2 : y ≥ 0.9965
  · rw [if_pos b2] <;> norm_num
  rw [if_neg b2]
  rw [if_neg (by linarith)]
  by_cases m1 : y < 0.69
  · rw [if_pos m1] <;> norm_num
  rw [if_neg m1]
  by_cases m2 : y < 0.74
  · rw [if_pos m2] <;> norm_num
  rw [if_neg m2]
  by_cases m3 : y < 0.77
  · rw [if_pos m3] <;> norm_num
  rw [if_neg m3]
  by_cases m4 : y < 0.81
  · rw [if_pos m4] <;> norm_num
  rw [if_neg m4]
  by_cases m5 : y < 0.86
  · rw [if_pos m5] <;> norm_num
  rw [if_neg m5]
  by_cases m6 : y < 0.89
  · rw [if_pos m6] <;> norm_num
  rw [if_neg m6]
  by_cases m7 : y < 0.93
  · rw [if_pos m7] <;> norm_num
  rw [if_neg m7]
  all_goals norm_num

theorem Aspec_lb_3 (y : ℚ) (hy : (0.69 : ℚ) ≤ y) : 480 ≤ Aspec y := by
  unfold Aspec
  rw [if_neg (by linarith)]
  by_cases b2 : y ≥ 0.9965
  · rw [if_pos b2] <;> norm_num
  rw [if_neg b2]
  rw [if_neg (by linarith)]
  rw [if_neg (by linarith)]
  by_cases m2 : y < 0.74
  · rw [if_pos m2] <;> norm_num
  rw [if_neg m2]
  by_cases m3 : y < 0.77
  · rw [if_pos m3] <;> norm_num
  rw [if_neg m3]
  by_cases m4 : y < 0.81
  · rw [if_pos m4] <;> norm_num
  rw [if_neg m4]
  by_cases m5 : y < 0.86
  · rw [if_pos m5] <;> norm_num
  rw [if_neg m5]
  by_cases m6 : y < 0.89
  · rw [if_pos m6] <;> norm_num
  rw [if_neg m6]
  by_cases m7 : y < 0.93
  · rw [if_pos m7] <;> norm_num
  rw [if_neg m7]
  all_goals norm_num

theorem Aspec_lb_4 (y : ℚ) (hy : (0.74 : ℚ) ≤ y) : 520 ≤ Aspec y := by
  unfold Aspec
  rw [if_neg (by linarith)]
  by_cases b2 : y ≥ 0.9965
  · rw [if_pos b2] <;> norm_num
  rw [if_neg b2]
  rw [if_neg (by linarith)]
  rw [if_neg (by linarith)]
  rw [if_neg (by linarith)]
  by_cases m3 : y < 0.77
  · rw [if_pos m3] <;> norm_num
  rw [if_neg m3]
  by_cases m4 : y < 0.81
  · rw [if_pos m4] <;> norm_num
  rw [if_neg m4]
  by_cases m5 : y < 0.86
  · rw [if_pos m5] <;> norm_num
  rw [if_neg m5]
  by_cases m6 : y < 0.89
  · rw [if_pos m6] <;> norm_num
  rw [if_neg m6]
  by_cases m7 : y < 0.93
  · rw [if_pos m7] <;> norm_num
  rw [if_neg m7]
  all_goals norm_num

theorem Aspec_lb_5 (y : ℚ) (hy : (0.77 : ℚ) ≤ y) : 520 ≤ Aspec y := by
  unfold Aspec
  rw [if_neg (by linarith)]
  by_cases b2 : y ≥ 0.9965
  · rw [if_pos b2] <;> norm_num
  rw [if_neg b2]
  rw [if_neg (by linarith)]
  rw [if_neg (by linarith)]
  rw [if_neg (by linarith)]
  rw [if_neg (by linarith)]
  by_cases m4 : y < 0.81
  · rw [if_pos m4] <;> norm_num
  rw [if_neg m4]
  by_cases m5 : y < 0.86
  · rw [if_pos m5] <;> norm_num
  rw [if_neg m5]
  by_cases m6 : y < 0.89
  · rw [if_pos m6] <;> norm_num
  rw [if_neg m6]
  by_cases m7 : y < 0.93
  · rw [if_pos m7] <;> norm_num
  rw [if_neg m7]
  all_goals norm_num

theorem Aspec_lb_6 (y : ℚ) (hy : (0.81 : ℚ) ≤ y) : 560 ≤ Aspec y := by
  unfold Aspec
  rw [if_neg (by linarith)]
  by_cases b2 : y ≥ 0.9965
  · rw [if_pos b2] <;> norm_num
  rw [if_neg b2]
  rw [if_neg (by linarith)]
  rw [if_neg (by linarith)]
  rw [if_neg (by linarith)]
  rw [if_neg (by linarith)]
  rw [if_neg (by linarith)]
  by_cases m5 : y < 0.86
  · rw [if_pos m5] <;> norm_num
  rw [if_neg m5]
  by_cases m6 : y < 0.89
  · rw [if_pos m6] <;> norm_num
  rw [if_neg m6]
  by_cases m7 : y < 0.93
  · rw [if_pos m7] <;> norm_num
  rw [if_neg m7]
  all_goals norm_num

theorem Aspec_lb_7 (y : ℚ) (hy : (0.86 : ℚ) ≤ y) : 560 ≤ Aspec y := by
  unfold Aspec
  rw [if_neg (by linarith)]
  by_cases b2 : y ≥ 0.9965
  · rw [if_pos b2] <;> norm_num
  rw [if_neg b2]
  rw [if_neg (by linarith)]
  rw [if_neg (by linarith)]
  rw [if_neg (by linarith)]
  rw [if_neg (by linarith)]
  rw [if_neg (by linarith)]
  rw [if_neg (by linarith)]
  by_cases m6 : y < 0.89
  · rw [if_pos m6] <;> norm_num
  rw [if_neg m6]
  by_cases m7 : y < 0.93
  · rw [if_pos m7] <;> norm_num
  rw [if_neg m7]
  all_goals norm_num

theorem Aspec_lb_8 (y : ℚ) (hy : (0.89 : ℚ) ≤ y) : 600 ≤ Aspec y := by
  unfold Aspec
  rw [if_neg (by linarith)]
  by_cases b2 : y ≥ 0.9965
  · rw [if_pos b2] <;> norm_num
  rw [if_neg b2]
  rw [if_neg (by linarith)]
  rw [if_neg (by linarith)]
  rw [if_neg (by linarith)]
  rw [if_neg (by linarith)]
  rw [if_neg (by linarith)]
  rw [if_neg (by linarith)]
  rw [if_neg (by linarith)]
  by_cases m7 : y < 0.93
  · rw [if_pos m7] <;> norm_num
  rw [if_neg m7]
  all_goals norm_num

theorem Aspec_lb_9 (y : ℚ) (hy : (0.93 : ℚ) ≤ y) : 600 ≤ Aspec y := by
  unfold Aspec
  rw [if_neg (by linarith)]
  by_cases b2 : y ≥ 0.9965
  · rw [if_pos b2] <;> norm_num
  rw [if_neg b2]
  rw [if_neg (by linarith)]
  rw [if_neg (by linarith)]
  rw [if_neg (by linarith)]
  rw [if_neg (by linarith)]
  rw [if_neg (by linarith)]
  rw [if_neg (by linarith)]
  rw [if_neg (by linarith)]
  rw [if_neg (by linarith)]
  all_goals norm_num

theorem Aspec_mono {x y : ℚ} (h : x ≤ y) : Aspec x ≤ Aspec y := by
  by_cases c1 : x ≤ 0.62
  · rw [show Aspec x = 450 from by unfold Aspec; rw [if_pos c1]]
    exact Aspec_ge_min y
  by_cases c2 : x ≥ 0.9965
  · rw [show Aspec x = 630 from by unfold Aspec; rw [if_neg c1, if_pos c2]]
    exact Aspec_lb_top y (by linarith)
  by_cases c3 : x < 0.66
  · rw [show Aspec x = 450 from by unfold Aspec; rw [if_neg c1, if_neg c2, if_pos c3]]
    exact Aspec_ge_min y
  have g1 : (0.66 : ℚ) ≤ x := not_lt.mp c3
  by_cases c4 : x < 0.69
  · rw [show Aspec x = 480 from by unfold Aspec; rw [if_neg c1, if_neg c2, if_neg c3, if_pos c4]]
    exact Aspec_lb_2 y (by linarith)
  have g2 : (0.69 : ℚ) ≤ x := not_lt.mp c4
  by_cases c5 : x < 0.74
  · rw [show Aspec x = 480 from by unfold Aspec; rw [if_neg c1, if_neg c2, if_neg c3, if_neg c4, if_pos c5]]
    exact Aspec_lb_3 y (by linarith)
  have g3 : (0.74 : ℚ) ≤ x := not_lt.mp c5
  by_cases c6 : x < 0.77
  · rw [show Aspec x = 520 from by unfold Aspec; rw [if_neg c1, if_neg c2, if_neg c3, if_neg c4, if_neg c5, if_pos c6]]
    exact Aspec_lb_4 y (by linarith)
  have g4 : (0.77 : ℚ) ≤ x := not_lt.mp c6
  by_cases c7 : x < 0.81
  · rw [show Aspec x = 520 from by unfold Aspec; rw [if_neg c1, if_neg c2, if_neg c3, if_neg c4, if_neg c5, if_neg c6, if_pos c7]]
    exact Aspec_lb_5 y (by linarith)
  have g5 : (0.81 : ℚ) ≤ x := not_lt.mp c7
  by_cases c8 : x < 0.86
  · rw [show Aspec x = 560 from by unfold Aspec; rw [if_neg c1, if_neg c2, if_neg c3, if_neg c4, if_neg c5, if_neg c6, if_neg c7, if_pos c8]]
    exact Aspec_lb_6 y (by linarith)
  have g6 : (0.86 : ℚ) ≤ x := not_lt.mp c8
  by_cases c9 : x < 0.89
  · rw [show Aspec x = 560 from by unfold Aspec; rw [if_neg c1, if_neg c2, if_neg c3, if_neg c4, if_neg c5, if_neg c6, if_neg c7, if_neg c8, if_pos c9]]
    exact Aspec_lb_7 y (by linarith)
  have g7 : (0.89 : ℚ) ≤ x := not_lt.mp c9
  by_cases c10 : x < 0.93
  · rw [show Aspec x = 600 from by unfold Aspec; rw [if_neg c1, if_neg c2, if_neg c3, if_neg c4, if_neg c5, if_neg c6, if_neg c7, if_neg c8, if_neg c9, if_pos c10]]
    exact Aspec_lb_8 y (by linarith)
  have g8 : (0.93 : ℚ) ≤ x := not_lt.mp c10
  rw [show Aspec x = 600 from by unfold Aspec; rw [if_neg c1, if_neg c2, if_neg c3, if_neg c4, if_neg c5, if_neg c6, if_neg c7, if_neg c8, if_neg c9, if_neg c10]]
  exact Aspec_lb_9 y (by linarith)

theorem AloadSpec_ge_min (j : ℤ) : (0.62 : ℚ) ≤ AloadSpec j := by
  unfold AloadSpec
  by_cases m0 : (32 : ℤ) ≤ j
  · rw [if_pos m0] <;> norm_num
  rw [if_neg m0]
  by_cases m1 : (31 : ℤ) ≤ j
  · rw [if_pos m1] <;> norm_num
  rw [if_neg m1]
  by_cases m2 : (30 : ℤ) ≤ j
  · rw [if_pos m2] <;> norm_num
  rw [if_neg m2]
  by_cases m3 : (29 : ℤ) ≤ j
  · rw [if_pos m3] <;> norm_num
  rw [if_neg m3]
  by_cases m4 : (28 : ℤ) ≤ j
  · rw [if_pos m4] <;> norm_num
  rw [if_neg m4]
  by_cases m5 : (27 : ℤ) ≤ j
  · rw [if_pos m5] <;> norm_num
  rw [if_neg m5]
  by_cases m6 : (26 : ℤ) ≤ j
  · rw [if_pos m6] <;> norm_num
  rw [if_neg m6]
  by_cases m7 : (25 : ℤ) ≤ j
  · rw [if_pos m7] <;> norm_num
  rw [if_neg m7]
  by_cases m8 : (24 : ℤ) ≤ j
  · rw [if_pos m8] <;> norm_num
  rw [if_neg m8]
  by_cases m9 : (23 : ℤ) ≤ j
  · rw [if_pos m9] <;> norm_num
  rw [if_neg m9]
  all_goals norm_num

theorem AloadSpec_lb_32 (j : ℤ) (hj : (32 : ℤ) ≤ j) : (1 : ℚ) ≤ AloadSpec j := by
  unfold AloadSpec
  rw [if_pos hj]

theorem AloadSpec_lb_31 (j : ℤ) (hj : (31 : ℤ) ≤ j) : (0.93 : ℚ) ≤ AloadSpec j := by
  unfold AloadSpec
  by_cases m0 : (32 : ℤ) ≤ j
  · rw [if_pos m0] <;> norm_num
  rw [if_neg m0]
  rw [if_pos hj]
  all_goals norm_num

theorem AloadSpec_lb_30 (j : ℤ) (hj : (30 : ℤ) ≤ j) : (0.89 : ℚ) ≤ AloadSpec j := by
  unfold AloadSpec
  by_cases m0 : (32 : ℤ) ≤ j
  · rw [if_pos m0] <;> norm_num
  rw [if_neg m0]
  by_cases m1 : (31 : ℤ) ≤ j
  · rw [if_pos m1] <;> norm_num
  rw [if_neg m1]
  rw [if_pos hj]
  all_goals norm_num

theorem AloadSpec_lb_29 (j : ℤ) (hj : (29 : ℤ) ≤ j) : (0.86 : ℚ) ≤ AloadSpec j := by
  unfold AloadSpec
  by_cases m0 : (32 : ℤ) ≤ j
  · rw [if_pos m0] <;> norm_num
  rw [if_neg m0]
  by_cases m1 : (31 : ℤ) ≤ j
  · rw [if_pos m1] <;> norm_num
  rw [if_neg m1]
  by_cases m2 : (30 : ℤ) ≤ j
  · rw [if_pos m2] <;> norm_num
  rw [if_neg m2]
  rw [if_pos hj]
  all_goals norm_num

theorem AloadSpec_lb_28 (j : ℤ) (hj : (28 : ℤ) ≤ j) : (0.81 : ℚ) ≤ AloadSpec j := by
  unfold AloadSpec
  by_cases m0 : (32 : ℤ) ≤ j
  · rw [if_pos m0] <;> norm_num
  rw [if_neg m0]
  by_cases m1 : (31 : ℤ) ≤ j
  · rw [if_pos m1] <;> norm_num
  rw [if_neg m1]
  by_cases m2 : (30 : ℤ) ≤ j
  · rw [if_pos m2] <;> norm_num
  rw [if_neg m2]
  by_cases m3 : (29 : ℤ) ≤ j
  · rw [if_pos m3] <;> norm_num
  rw [if_neg m3]
  rw [if_pos hj]
  all_goals norm_num

theorem AloadSpec_lb_27 (j : ℤ) (hj : (27 : ℤ) ≤ j) : (0.77 : ℚ) ≤ AloadSpec j := by
  unfold AloadSpec
  by_cases m0 : (32 : ℤ) ≤ j
  · rw [if_pos m0] <;> norm_num
  rw [if_neg m0]
  by_cases m1 : (31 : ℤ) ≤ j
  · rw [if_pos m1] <;> norm_num
  rw [if_neg m1]
  by_cases m2 : (30 : ℤ) ≤ j
  · rw [if_pos m2] <;> norm_num
  rw [if_neg m2]
  by_cases m3 : (29 : ℤ) ≤ j
  · rw [if_pos m3] <;> norm_num
  rw [if_neg m3]
  by_cases m4 : (28 : ℤ) ≤ j
  · rw [if_pos m4] <;> norm_num
  rw [if_neg m4]
  rw [if_pos hj]
  all_goals norm_num

theorem AloadSpec_lb_26 (j : ℤ) (hj : (26 : ℤ) ≤ j) : (0.74 : ℚ) ≤ AloadSpec j := by
  unfold AloadSpec
  by_cases m0 : (32 : ℤ) ≤ j
  · rw [if_pos m0] <;> norm_num
  rw [if_neg m0]
  by_cases m1 : (31 : ℤ) ≤ j
  · rw [if_pos m1] <;> norm_num
  rw [if_neg m1]
  by_cases m2 : (30 : ℤ) ≤ j
  · rw [if_pos m2] <;> norm_num
  rw [if_neg m2]
  by_cases m3 : (29 : ℤ) ≤ j
  · rw [if_pos m3] <;> norm_num
  rw [if_neg m3]
  by_cases m4 : (28 : ℤ) ≤ j
  · rw [if_pos m4] <;> norm_num
  rw [if_neg m4]
  by_cases m5 : (27 : ℤ) ≤ j
  · rw [if_pos m5] <;> norm_num
  rw [if_neg m5]
  rw [if_pos hj]
  all_goals norm_num

theorem AloadSpec_lb_25 (j : ℤ) (hj : (25 : ℤ) ≤ j) : (0.69 : ℚ) ≤ AloadSpec j := by
  unfold AloadSpec
  by_cases m0 : (32 : ℤ) ≤ j
  · rw [if_pos m0] <;> norm_num
  rw [if_neg m0]
  by_cases m1 : (31 : ℤ) ≤ j
  · rw [if_pos m1] <;> norm_num
  rw [if_neg m1]
  by_cases m2 : (30 : ℤ) ≤ j
  · rw [if_pos m2] <;> norm_num
  rw [if_neg m2]
  by_cases m3 : (29 : ℤ) ≤ j
  · rw [if_pos m3] <;> norm_num
  rw [if_neg m3]
  by_cases m4 : (28 : ℤ) ≤ j
  · rw [if_pos m4] <;> norm_num
  rw [if_neg m4]
  by_cases m5 : (27 : ℤ) ≤ j
  · rw [if_pos m5] <;> norm_num
  rw [if_neg m5]
  by_cases m6 : (26 : ℤ) ≤ j
  · rw [if_pos m6] <;> norm_num
  rw [if_neg m6]
  rw [if_pos hj]
  all_goals norm_num

theorem AloadSpec_lb_24 (j : ℤ) (hj : (24 : ℤ) ≤ j) : (0.66 : ℚ) ≤ AloadSpec j := by
  unfold AloadSpec
  by_cases m0 : (32 : ℤ) ≤ j
  · rw [if_pos m0] <;> norm_num
  rw [if_neg m0]
  by_cases m1 : (31 : ℤ) ≤ j
  · rw [if_pos m1] <;> norm_num
  rw [if_neg m1]
  by_cases m2 : (30 : ℤ) ≤ j
  · rw [if_pos m2] <;> norm_num
  rw [if_neg m2]
  by_cases m3 : (29 : ℤ) ≤ j
  · rw [if_pos m3] <;> norm_num
  rw [if_neg m3]
  by_cases m4 : (28 : ℤ) ≤ j
  · rw [if_pos m4] <;> norm_num
  rw [if_neg m4]
  by_cases m5 : (27 : ℤ) ≤ j
  · rw [if_pos m5] <;> norm_num
  rw [if_neg m5]
  by_cases m6 : (26 : ℤ) ≤ j
  · rw [if_pos m6] <;> norm_num
  rw [if_neg m6]
  by_cases m7 : (25 : ℤ) ≤ j
  · rw [if_pos m7] <;> norm_num
  rw [if_neg m7]
  rw [if_pos hj]
  all_goals norm_num

theorem AloadSpec_lb_23 (j : ℤ) (hj : (23 : ℤ) ≤ j) : (0.62 : ℚ) ≤ AloadSpec j := by
  unfold AloadSpec
  by_cases m0 : (32 : ℤ) ≤ j
  · rw [if_pos m0] <;> norm_num
  rw [if_neg m0]
  by_cases m1 : (31 : ℤ) ≤ j
  · rw [if_pos m1] <;> norm_num
  rw [if_neg m1]
  by_cases m2 : (30 : ℤ) ≤ j
  · rw [if_pos m2] <;> norm_num
  rw [if_neg m2]
  by_cases m3 : (29 : ℤ) ≤ j
  · rw [if_pos m3] <;> norm_num
  rw [if_neg m3]
  by_cases m4 : (28 : ℤ) ≤ j
  · rw [if_pos m4] <;> norm_num
  rw [if_neg m4]
  by_cases m5 : (27 : ℤ) ≤ j
  · rw [if_pos m5] <;> norm_num
  rw [if_neg m5]
  by_cases m6 : (26 : ℤ) ≤ j
  · rw [if_pos m6] <;> norm_num
  rw [if_neg m6]
  by_cases m7 : (25 : ℤ) ≤ j
  · rw [if_pos m7] <;> norm_num
  rw [if_neg m7]
  by_cases m8 : (24 : ℤ) ≤ j
  · rw [if_pos m8] <;> norm_num
  rw [if_neg m8]
  rw [if_pos hj]
  all_goals norm_num

theorem AloadSpec_mono {k j : ℤ} (h : k ≤ j) : AloadSpec k ≤ AloadSpec j := by
  by_cases c0 : (32 : ℤ) ≤ k
  · rw [show AloadSpec k = 1 from by unfold AloadSpec; rw [if_pos c0]]
    exact AloadSpec_lb_32 j (by omega)
  by_cases c1 : (31 : ℤ) ≤ k
  · rw [show AloadSpec k = 0.93 from by unfold AloadSpec; rw [if_neg c0, if_pos c1]]
    exact AloadSpec_lb_31 j (by omega)
  by_cases c2 : (30 : ℤ) ≤ k
  · rw [show AloadSpec k = 0.89 from by unfold AloadSpec; rw [if_neg c0, if_neg c1, if_pos c2]]
    exact AloadSpec_lb_30 j (by omega)
  by_cases c3 : (29 : ℤ) ≤ k
  · rw [show AloadSpec k = 0.86 from by unfold AloadSpec; rw [if_neg c0, if_neg c1, if_neg c2, if_pos c3]]
    exact AloadSpec_lb_29 j (by omega)
  by_cases c4 : (28 : ℤ) ≤ k
  · rw [show AloadSpec k = 0.81 from by unfold AloadSpec; rw [if_neg c0, if_neg c1, if_neg c2, if_neg c3, if_pos c4]]
    exact AloadSpec_lb_28 j (by omega)
  by_cases c5 : (27 : ℤ) ≤ k
  · rw [show AloadSpec k = 0.77 from by unfold AloadSpec; rw [if_neg c0, if_neg c1, if_neg c2, if_neg c3, if_neg c4, if_pos c5]]
    exact AloadSpec_lb_27 j (by omega)
  by_cases c6 : (26 : ℤ) ≤ k
  · rw [show AloadSpec k = 0.74 from by unfold AloadSpec; rw [if_neg c0, if_neg c1, if_neg c2, if_neg c3, if_neg c4, if_neg c5, if_pos c6]]
    exact AloadSpec_lb_26 j (by omega)
  by_cases c7 : (25 : ℤ) ≤ k
  · rw [show AloadSpec k = 0.69 from by unfold AloadSpec; rw [if_neg c0, if_neg c1, if_neg c2, if_neg c3, if_neg c4, if_neg c5, if_neg c6, if_pos c7]]
    exact AloadSpec_lb_25 j (by omega)
  by_cases c8 : (24 : ℤ) ≤ k
  · rw [show AloadSpec k = 0.66 from by unfold AloadSpec; rw [if_neg c0, if_neg c1, if_neg c2, if_neg c3, if_neg c4, if_neg c5, if_neg c6, if_neg c7, if_pos c8]]
    exact AloadSpec_lb_24 j (by omega)
  by_cases c9 : (23 : ℤ) ≤ k
  · rw [show AloadSpec k = 0.62 from by unfold AloadSpec; rw [if_neg c0, if_neg c1, if_neg c2, if_neg c3, if_neg c4, if_neg c5, if_neg c6, if_neg c7, if_neg c8, if_pos c9]]
    exact AloadSpec_lb_23 j (by omega)
  rw [show AloadSpec k = 0.62 from by unfold AloadSpec; rw [if_neg c0, if_neg c1, if_neg c2, if_neg c3, if_neg c4, if_neg c5, if_neg c6, if_neg c7, if_neg c8, if_neg c9]]
  exact AloadSpec_ge_min j

theorem O_rpm_mono {x y : ℚ} (h : x ≤ y) :
    Optimizer.get_rpm_from_load x ≤ Optimizer.get_rpm_from_load y := by
  rw [O_rpm_eq, O_rpm_eq]
  exact Ospec_mono h

theorem A_rpm_mono {x y : ℚ} (h : x ≤ y) :
    App.get_rpm_from_load x ≤ App.get_rpm_from_load y := by
  rw [A_rpm_eq, A_rpm_eq]
  exact Aspec_mono h

theorem A_load_mono {r s : ℚ} (h : r ≤ s) :
    App.get_load_from_rpm r ≤ App.get_load_from_rpm s := by
  rw [A_load_eq, A_load_eq]
  exact AloadSpec_mono (pyRound_mono (by linarith))

/-! ### The weekly-plan loop: length and chaining -/

theorem weekRaw_length (step : ℚ → ℚ → ℚ → DayRaw) (ls : List ℚ) :
    ∀ (cap el : ℚ), (weekRaw step cap el ls).length = ls.length := by
  induction ls with
  | nil => intro cap el; rfl
  | cons l t ih => intro cap el; simp [weekRaw, ih]

theorem weekAux_len (step : ℚ → ℚ → ℚ → DayRaw) (ls : List ℚ) :
    ∀ (labels : List String) (cap el : ℚ),
    (weekAux step labels cap el ls).map List.length
      = if ls.length ≤ labels.length then some ls.length else none := by
  induction ls with
  | nil => intro labels cap el; simp [weekAux]
  | cons l t ih =>
    intro labels cap el
    cases labels with
    | nil => simp [weekAux]
    | cons lb lbs =>
      simp only [weekAux, Option.map_map, List.length_cons]
      rw [show (List.length ∘ fun rest => renderDay lb (step cap el l) :: rest)
          = (fun n => n + 1) ∘ (List.length : List DayPlan → ℕ) from
          funext (fun r => by simp)]
      rw [← Option.map_map, ih]
      by_cases hl : t.length ≤ lbs.length
      · rw [if_pos hl, if_pos (by omega)]
        rfl
      · rw [if_neg hl, if_neg (by omega)]
        rfl

theorem weekRaw_start_head (step : ℚ → ℚ → ℚ → DayRaw)
    (hstep : ∀ cap el l, (step cap el l).start_capacity = cap)
    (cap el l : ℚ) (ls : List ℚ) :
    ((weekRaw step cap el (l :: ls)).getD 0 dayDefault).start_capacity = cap := by
  simp [weekRaw, hstep]

theorem weekRaw_chain (step : ℚ → ℚ → ℚ → DayRaw)
    (hstep : ∀ cap el l, (step cap el l).start_capacity = cap) (ls : List ℚ) :
    ∀ (cap el : ℚ) (i : ℕ), i + 1 < (weekRaw step cap el ls).length →
      ((weekRaw step cap el ls).getD i dayDefault).end_capacity
        = ((weekRaw step cap el ls).getD (i + 1) dayDefault).start_capacity := by
  induction ls with
  | nil => intro cap el i h; simp [weekRaw] at h
  | cons l t ih =>
    intro cap el i h
    cases i with
    | zero =>
      cases t with
      | nil => simp [weekRaw, weekRaw_length] at h
      | cons l2 t2 =>
        simp only [weekRaw, List.getD_cons_zero, List.getD_cons_succ]
        exact (hstep _ el l2).symm
    | succ j =>
      simp only [weekRaw, List.getD_cons_succ]
      apply ih
      simp only [weekRaw, List.length_cons] at h
      omega

theorem weekRaw_mem (step : ℚ → ℚ → ℚ → DayRaw) {P : DayRaw → Prop}
    (hstep : ∀ cap el l, P (step cap el l)) (ls : List ℚ) :
    ∀ (cap el : ℚ) (d : DayRaw), d ∈ weekRaw step cap el ls → P d := by
  induction ls with
  | nil => intro cap el d h; simp [weekRaw] at h
  | cons l t ih =>
    intro cap el d h
    simp only [weekRaw, List.mem_cons] at h
    rcases h with rfl | h
    · exact hstep cap el l
    · exact ih _ el d h

/-! ### Per-day facts shared by the claims -/

theorem O_start_capacity (cap el l : ℚ) :
    (Optimizer.computeDay cap el l).start_capacity = cap := rfl

theorem A_start_capacity (cap el l : ℚ) :
    (App.computeDay cap el l).start_capacity = cap := rfl

theorem O_output_shape (m : String) (f p : ℚ) :
    Optimizer.calculate_daily_output m f p
      = (if m = "单机" then (95 : ℚ) else 190)
        + (if m = "单机" then (106.875 : ℚ) else 213.75) * f
        + (if m = "单机" then (83.125 : ℚ) else 166.25) * p := by
  by_cases hm : m = "单机" <;> simp [Optimizer.calculate_daily_output, hm] <;> ring

theorem A_output_shape (m : String) (f p : ℚ) :
    App.calculate_daily_output m f p
      = (if m = "单机" then (95 : ℚ) else 190)
        + (if m = "单机" then (106.875 : ℚ) else 213.75) * f
        + (if m = "单机" then (83.125 : ℚ) else 166.25) * p := by
  by_cases hm : m = "单机" <;> simp [App.calculate_daily_output, hm]

theorem O_day_additive (cap el l : ℚ) :
    (Optimizer.computeDay cap el l).estimated_output
      = (if (Optimizer.computeDay cap el l).mode = "单机" then (95 : ℚ) else 190)
        + (if (Optimizer.computeDay cap el l).mode = "单机" then (106.875 : ℚ) else 213.75)
          * (Optimizer.computeDay cap el l).flat_load_rate
        + (if (Optimizer.computeDay cap el l).mode = "单机" then (83.125 : ℚ) else 166.25)
          * (Optimizer.computeDay cap el l).peak_load_rate := by
  have h : (Optimizer.computeDay cap el l).estimated_output
      = Optimizer.calculate_daily_output (Optimizer.computeDay cap el l).mode
        (Optimizer.computeDay cap el l).flat_load_rate
        (Optimizer.computeDay cap el l).peak_load_rate := rfl
  rw [h, O_output_shape]

theorem A_day_additive (cap el l : ℚ) :
    (App.computeDay cap el l).estimated_output
      = (if (App.computeDay cap el l).mode = "单机" then (95 : ℚ) else 190)
        + (if (App.computeDay cap el l).mode = "单机" then (106.875 : ℚ) else 213.75)
          * (App.computeDay cap el l).flat_load_rate
        + (if (App.computeDay cap el l).mode = "单机" then (83.125 : ℚ) else 166.25)
          * (App.computeDay cap el l).peak_load_rate := by
  have h : (App.computeDay cap el l).estimated_output
      = App.calculate_daily_output (App.computeDay cap el l).mode
        (App.computeDay cap el l).flat_load_rate
        (App.computeDay cap el l).peak_load_rate := rfl
  rw [h, A_output_shape]

theorem O_day_valley (cap el l : ℚ) : (Optimizer.computeDay cap el l).valley_rpm = 630 := rfl

theorem A_day_valley (cap el l : ℚ) : (App.computeDay cap el l).valley_rpm = 630 := rfl

/-! ### The capacity alert -/

theorem alert_iffs (e : ℚ) :
    (capacity_alert_of e = "罐容偏高，注意控制" ↔ 1300 < e)
      ∧ (capacity_alert_of e = "罐容偏低，注意补充" ↔ e < 900)
      ∧ (capacity_alert_of e = "正常" ↔ 900 ≤ e ∧ e ≤ 1300) := by
  unfold capacity_alert_of
  split_ifs with h1 h2
  · refine ⟨by simpa using h1, ?_, ?_⟩
    · constructor
      · intro hs
        exact absurd hs (by decide)
      · intro hlt
        exfalso
        linarith
    · constructor
      · intro hs
        exact absurd hs (by decide)
      · rintro ⟨h3, h4⟩
        linarith
  · refine ⟨?_, by simpa using h2, ?_⟩
    · constructor
      · intro hs
        exact absurd hs (by decide)
      · intro hlt
        exact absurd hlt h1
    · constructor
      · intro hs
        exact absurd hs (by decide)
      · rintro ⟨h3, h4⟩
        linarith
  · push_neg at h1 h2
    refine ⟨?_, ?_, ?_⟩
    · constructor
      · intro hs
        exact absurd hs (by decide)
      · intro hlt
        linarith
    · constructor
      · intro hs
        exact absurd hs (by decide)
      · intro hlt
        linarith
    · exact ⟨fun _ => ⟨h2, h1⟩, fun _ => rfl⟩

theorem O_day_alert (cap el l : ℚ) :
    (Optimizer.computeDay cap el l).capacity_alert
      = capacity_alert_of (Optimizer.computeDay cap el l).end_capacity := rfl

theorem A_day_alert (cap el l : ℚ) :
    (App.computeDay cap el l).capacity_alert
      = capacity_alert_of (App.computeDay cap el l).end_capacity := rfl

/-! ### Characterizations used by the claims about the lookups -/

theorem O_rpm_char (x : ℚ) (h1 : (0.62 : ℚ) < x) (h2 : x < 0.9965) :
    Optimizer.get_rpm_from_load x
      = ((specLastRatio Optimizer.rpm_load_map x).map Prod.fst).getD 450 :=
  (O_rpm_eq x).trans (O_spec_eq x h1 h2).symm

theorem A_rpm_char (x : ℚ) (h1 : ¬ x ≤ 0.62) (h2 : ¬ x ≥ 0.9965) :
    App.get_rpm_from_load x
      = ((specLast App.loadTbl x).map
          (fun base_rpm => min 630 (max 450 (pyRound ((base_rpm : ℚ) / 20) * 20)))).getD 450 := by
  simp only [App.get_rpm_from_load, if_neg h1, if_neg h2, specLast]
  rw [firstLEOpt_reverse]
  rcases ((keepLE App.loadTbl x).getLast?).map Prod.snd with _ | b <;> rfl

theorem A_load_char (r : ℚ) :
    App.get_load_from_rpm r
      = (specLast App.speedTbl ((pyRound (r / 20) * 20 : ℤ) : ℚ)).getD 0.62 := by
  simp only [App.get_load_from_rpm, specLast]
  rw [firstLE_reverse]

theorem dictGetD_default (l : List (ℤ × ℚ)) (r : ℤ) (d : ℚ)
    (h : ∀ p ∈ l, p.1 ≠ r) : dictGetD l r d = d := by
  induction l with
  | nil => rfl
  | cons a t ih =>
    obtain ⟨k, v⟩ := a
    rw [dictGetD, if_neg (h (k, v) (by simp)), ih (fun p hp => h p (by simp [hp]))]

theorem O_load_default (r : ℤ) (h : ∀ p ∈ Optimizer.rpm_load_map, p.1 ≠ r) :
    Optimizer.get_load_from_rpm r = 0.62 :=
  dictGetD_default _ _ _ h

/-! ### Dual-mode equalities and cross-file agreement -/

theorem O_flat_dual (d : ℚ) :
    Optimizer.calculate_flat_rpm "双机" d = Optimizer.calculate_flat_rpm "双机补库" d := by
  simp [Optimizer.calculate_flat_rpm]

theorem O_peak_dual (fr : ℤ) (d : ℚ) :
    Optimizer.calculate_peak_rpm "双机" fr d = Optimizer.calculate_peak_rpm "双机补库" fr d := by
  simp [Optimizer.calculate_peak_rpm]

theorem O_output_dual (f p : ℚ) :
    Optimizer.calculate_daily_output "双机" f p
      = Optimizer.calculate_daily_output "双机补库" f p := by
  simp [Optimizer.calculate_daily_output]

theorem A_flat_dual (d : ℚ) :
    App.calculate_flat_rpm "双机" d = App.calculate_flat_rpm "双机补库" d := by
  simp [App.calculate_flat_rpm]

theorem A_peak_dual (fr : ℤ) (d : ℚ) :
    App.calculate_peak_rpm "双机" fr d = App.calculate_peak_rpm "双机补库" fr d := by
  simp [App.calculate_peak_rpm]

theorem A_output_dual (f p : ℚ) :
    App.calculate_daily_output "双机" f p = App.calculate_daily_output "双机补库" f p := by
  simp [App.calculate_daily_output]

theorem O_dual_fields (c dd l : ℚ) :
    Optimizer.dayFields "双机" c dd l
      = { Optimizer.dayFields "双机补库" c dd l with mode := "双机", refill_flag := "否" } := by
  simp [Optimizer.dayFields, O_flat_dual, O_peak_dual, O_output_dual]

theorem A_dual_fields (c dd l : ℚ) :
    App.dayFields "双机" c dd l
      = { App.dayFields "双机补库" c dd l with mode := "双机", refill_flag := "否" } := by
  simp [App.dayFields, A_flat_dual, A_peak_dual, A_output_dual]

theorem O_refill_iff (m : String) (c dd l : ℚ) :
    (Optimizer.dayFields m c dd l).refill_flag = "是" ↔ m = "双机补库" := by
  by_cases hm : m = "双机补库" <;> simp [Optimizer.dayFields, hm]

theorem A_refill_iff (m : String) (c dd l : ℚ) :
    (App.dayFields m c dd l).refill_flag = "是" ↔ m = "双机补库" := by
  by_cases hm : m = "双机补库" <;> simp [App.dayFields, hm]

theorem mode_agree (d c : ℚ) : Optimizer.determine_mode d c = App.determine_mode d c := rfl

theorem output_agree (m : String) (f p : ℚ) :
    Optimizer.calculate_daily_output m f p = App.calculate_daily_output m f p := by
  by_cases hm : m = "单机" <;>
    simp [Optimizer.calculate_daily_output, App.calculate_daily_output, hm] <;> ring

theorem O_load_table : ∀ p ∈ Optimizer.rpm_load_map,
    Optimizer.get_load_from_rpm p.1 = p.2 := by
  intro p hp
  fin_cases hp <;> norm_num [Optimizer.get_load_from_rpm, Optimizer.rpm_load_map, dictGetD]

theorem O_load_chain :
    List.Chain' (fun p q => Optimizer.get_load_from_rpm p.1 ≤ Optimizer.get_load_from_rpm q.1)
      Optimizer.rpm_load_map := by
  norm_num [Optimizer.rpm_load_map, List.chain'_cons, Optimizer.get_load_from_rpm, dictGetD]

/-! ### Claims -/

/-- C2: `determine_mode` returns 双机补库 exactly when
`current_capacity < 900` and `daily_demand ≤ 350`, otherwise 双机 exactly
when `daily_demand > 350`, otherwise 单机 — first matching rule wins, in
both files; with the three instances from the specification. -/
theorem c2_mode :
    (∀ d c : ℚ, Optimizer.determine_mode d c
        = if c < 900 ∧ d ≤ 350 then "双机补库" else if d > 350 then "双机" else "单机")
    ∧ (∀ d c : ℚ, App.determine_mode d c
        = if c < 900 ∧ d ≤ 350 then "双机补库" else if d > 350 then "双机" else "单机")
    ∧ Optimizer.determine_mode 360 1000 = "双机"
    ∧ Optimizer.determine_mode 300 850 = "双机补库"
    ∧ Optimizer.determine_mode 300 1000 = "单机"
    ∧ App.determine_mode 360 1000 = "双机"
    ∧ App.determine_mode 300 850 = "双机补库"
    ∧ App.determine_mode 300 1000 = "单机" :=
  ⟨fun _ _ => rfl, fun _ _ => rfl,
    by norm_num [Optimizer.determine_mode],
    by norm_num [Optimizer.determine_mode],
    by norm_num [Optimizer.determine_mode],
    by norm_num [App.determine_mode],
    by norm_num [App.determine_mode],
    by norm_num [App.determine_mode]⟩

/-- C5: every day of every generated plan (in both files) has
`estimated_output` equal to the valley output (95 single / 190 dual) plus
`106.875` (single) or `213.75` (dual) times the flat load plus `83.125`
(single) or `166.25` (dual) times the peak load, with the valley speed
fixed at 630. -/
theorem c5_output (cap el : ℚ) (ls : List ℚ) (d : DayRaw) :
    (d ∈ weekRaw Optimizer.computeDay cap el ls →
      d.estimated_output
          = (if d.mode = "单机" then (95 : ℚ) else 190)
            + (if d.mode = "单机" then (106.875 : ℚ) else 213.75) * d.flat_load_rate
            + (if d.mode = "单机" then (83.125 : ℚ) else 166.25) * d.peak_load_rate
        ∧ d.valley_rpm = 630)
    ∧ (d ∈ weekRaw App.computeDay cap el ls →
      d.estimated_output
          = (if d.mode = "单机" then (95 : ℚ) else 190)
            + (if d.mode = "单机" then (106.875 : ℚ) else 213.75) * d.flat_load_rate
            + (if d.mode = "单机" then (83.125 : ℚ) else 166.25) * d.peak_load_rate
        ∧ d.valley_rpm = 630)  := by
  constructor
  · exact @weekRaw_mem Optimizer.computeDay
      (fun d => d.estimated_output
          = (if d.mode = "单机" then (95 : ℚ) else 190)
            + (if d.mode = "单机" then (106.875 : ℚ) else 213.75) * d.flat_load_rate
            + (if d.mode = "单机" then (83.125 : ℚ) else 166.25) * d.peak_load_rate
        ∧ d.valley_rpm = 630)
      (fun c e l => ⟨O_day_additive c e l, O_day_valley c e l⟩) ls cap el d
  · exact @weekRaw_mem App.computeDay
      (fun d => d.estimated_output
          = (if d.mode = "单机" then (95 : ℚ) else 190)
            + (if d.mode = "单机" then (106.875 : ℚ) else 213.75) * d.flat_load_rate
            + (if d.mode = "单机" then (83.125 : ℚ) else 166.25) * d.peak_load_rate
        ∧ d.valley_rpm = 630)
      (fun c e l => ⟨A_day_additive c e l, A_day_valley c e l⟩) ls cap el d

/-- C5 witness: the single day generated from capacity 1000, empty loss 60
and loading 300 satisfies the additivity property. -/
theorem c5_output_witness :
    (Optimizer.computeDay 1000 60 300 ∈ weekRaw Optimizer.computeDay 1000 60 [300])
    ∧ ((Optimizer.computeDay 1000 60 300).estimated_output
          = (if (Optimizer.computeDay 1000 60 300).mode = "单机" then (95 : ℚ) else 190)
            + (if (Optimizer.computeDay 1000 60 300).mode = "单机" then (106.875 : ℚ) else 213.75)
              * (Optimizer.computeDay 1000 60 300).flat_load_rate
            + (if (Optimizer.computeDay 1000 60 300).mode = "单机" then (83.125 : ℚ) else 166.25)
              * (Optimizer.computeDay 1000 60 300).peak_load_rate
        ∧ (Optimizer.computeDay 1000 60 300).valley_rpm = 630) :=
  ⟨by simp [weekRaw],
    (c5_output 1000 60 [300] (Optimizer.computeDay 1000 60 300)).1 (by simp [weekRaw])⟩

/-- C6: the capacity alert is the high warning exactly when the end
capacity exceeds 1300, the low warning exactly when it is below 900, and
"正常" otherwise; both bounds are strict, so 1300 and 900 map to 正常;
and each generated day's alert is this function of its end capacity. -/
theorem c6_alert (e cap el l : ℚ) :
    ((capacity_alert_of e = "罐容偏高，注意控制" ↔ 1300 < e)
      ∧ (capacity_alert_of e = "罐容偏低，注意补充" ↔ e < 900)
      ∧ (capacity_alert_of e = "正常" ↔ 900 ≤ e ∧ e ≤ 1300))
    ∧ capacity_alert_of 1300 = "正常"
    ∧ capacity_alert_of 900 = "正常"
    ∧ (Optimizer.computeDay cap el l).capacity_alert
        = capacity_alert_of (Optimizer.computeDay cap el l).end_capacity
    ∧ (App.computeDay cap el l).capacity_alert
        = capacity_alert_of (App.computeDay cap el l).end_capacity :=
  ⟨alert_iffs e,
    by norm_num [capacity_alert_of],
    by norm_num [capacity_alert_of],
    O_day_alert cap el l,
    A_day_alert cap el l⟩

/-- C7 counterexample: `compressor_optimizer.py`'s `get_load_from_rpm` is
not monotone: it maps 470 to its exact table ratio but the snapped speed
480 to the 0.62 default, so the value drops. -/
theorem c7_mono_cex :
    (470 : ℤ) ≤ 480
    ∧ ¬ (Optimizer.get_load_from_rpm 470 ≤ Optimizer.get_load_from_rpm 480) :=
  ⟨by norm_num,
    by norm_num [Optimizer.get_load_from_rpm, Optimizer.rpm_load_map, dictGetD]⟩

/-- C7 amended: both `get_rpm_from_load` implementations are monotone, and
`app.py`'s `get_load_from_rpm` is monotone; `compressor_optimizer.py`'s
`get_load_from_rpm` is monotone only along the tabulated speeds. -/
theorem c7_mono_amended :
    (∀ x y : ℚ, x ≤ y → Optimizer.get_rpm_from_load x ≤ Optimizer.get_rpm_from_load y)
    ∧ (∀ x y : ℚ, x ≤ y → App.get_rpm_from_load x ≤ App.get_rpm_from_load y)
    ∧ (∀ r s : ℚ, r ≤ s → App.get_load_from_rpm r ≤ App.get_load_from_rpm s)
    ∧ List.Chain'
        (fun p q => Optimizer.get_load_from_rpm p.1 ≤ Optimizer.get_load_from_rpm q.1)
        Optimizer.rpm_load_map :=
  ⟨fun _ _ h => O_rpm_mono h, fun _ _ h => A_rpm_mono h, fun _ _ h => A_load_mono h,
    O_load_chain⟩

/-- C7 witness: monotonicity applied at 0.7 ≤ 0.8. -/
theorem c7_mono_witness :
    (0.7 : ℚ) ≤ 0.8
    ∧ Optimizer.get_rpm_from_load 0.7 ≤ Optimizer.get_rpm_from_load 0.8 :=
  ⟨by norm_num, c7_mono_amended.1 0.7 0.8 (by norm_num)⟩

/-- C10: in both files, for any capacity, demand and loading, the two dual
modes produce the same day record except for the mode label and the refill
flag; in particular flat and peak speeds, their load ratios and the
estimated output coincide, and the refill flag is 是 exactly for 双机补库. -/
theorem c10_dual (c dd l : ℚ) :
    (Optimizer.dayFields "双机" c dd l
        = { Optimizer.dayFields "双机补库" c dd l with mode := "双机", refill_flag := "否" })
    ∧ (App.dayFields "双机" c dd l
        = { App.dayFields "双机补库" c dd l with mode := "双机", refill_flag := "否" })
    ∧ (Optimizer.dayFields "双机" c dd l).flat_rpm
        = (Optimizer.dayFields "双机补库" c dd l).flat_rpm
    ∧ (Optimizer.dayFields "双机" c dd l).peak_rpm
        = (Optimizer.dayFields "双机补库" c dd l).peak_rpm
    ∧ (Optimizer.dayFields "双机" c dd l).flat_load_rate
        = (Optimizer.dayFields "双机补库" c dd l).flat_load_rate
    ∧ (Optimizer.dayFields "双机" c dd l).peak_load_rate
        = (Optimizer.dayFields "双机补库" c dd l).peak_load_rate
    ∧ (Optimizer.dayFields "双机" c dd l).estimated_output
        = (Optimizer.dayFields "双机补库" c dd l).estimated_output
    ∧ (App.dayFields "双机" c dd l).flat_rpm = (App.dayFields "双机补库" c dd l).flat_rpm
    ∧ (App.dayFields "双机" c dd l).peak_rpm = (App.dayFields "双机补库" c dd l).peak_rpm
    ∧ (App.dayFields "双机" c dd l).flat_load_rate
        = (App.dayFields "双机补库" c dd l).flat_load_rate
    ∧ (App.dayFields "双机" c dd l).peak_load_rate
        = (App.dayFields "双机补库" c dd l).peak_load_rate
    ∧ (App.dayFields "双机" c dd l).estimated_output
        = (App.dayFields "双机补库" c dd l).estimated_output
    ∧ (∀ m : String, (Optimizer.dayFields m c dd l).refill_flag = "是" ↔ m = "双机补库")
    ∧ (∀ m : String, (App.dayFields m c dd l).refill_flag = "是" ↔ m = "双机补库") :=
  ⟨O_dual_fields c dd l, A_dual_fields c dd l,
    by rw [O_dual_fields], by rw [O_dual_fields], by rw [O_dual_fields],
    by rw [O_dual_fields], by rw [O_dual_fields],
    by rw [A_dual_fields], by rw [A_dual_fields], by rw [A_dual_fields],
    by rw [A_dual_fields], by rw [A_dual_fields],
    fun m => O_refill_iff m c dd l, fun m => A_refill_iff m c dd l⟩

/-- C1 counterexample: with the default parameters and seven loadings of
300, day 1's recorded `期末罐容` (rounded to 1 decimal) differs from day
2's recorded `当前罐容` (rounded to 5 decimals): 1064.7 vs 1064.66667. -/
theorem c1_chaining_cex :
    ((Optimizer.generate_weekly_plan default_params [300, 300, 300, 300, 300, 300, 300]).map
        (fun pl => ((pl.getD 0 dpDefault).end_capacity, (pl.getD 1 dpDefault).start_capacity)))
      = some (1064.7, 1064.66667) ∧ (1064.7 : ℚ) ≠ 1064.66667 := by
  constructor
  · norm_num [Optimizer.generate_weekly_plan, weekAux, days, default_params, renderDay,
      pyRoundDec, Optimizer.computeDay, Optimizer.dayFields, Optimizer.determine_mode,
      Optimizer.calculate_flat_rpm, Optimizer.calculate_peak_rpm,
      Optimizer.calculate_daily_output, Optimizer.get_rpm_from_load,
      Optimizer.get_load_from_rpm, Optimizer.rpm_load_map, dictGetD, leFilter, pymax,
      findClose, pyRound, abs_lt, List.foldl,
      ne_dual_single, ne_refill_single, ne_single_refill, ne_dual_refill]
  · norm_num

/-- C1 amended: the chaining invariant holds on the values the plan
carries forward: in both files, day i's unrounded end capacity equals day
i+1's unrounded start capacity; the recorded fields are roundings of these
values at different precisions (1 vs 5 decimals) and can disagree. -/
theorem c1_chaining_amended (cap el : ℚ) (ls : List ℚ) (i : ℕ)
    (h1 : i + 1 < (weekRaw Optimizer.computeDay cap el ls).length)
    (h2 : i + 1 < (weekRaw App.computeDay cap el ls).length) :
    ((weekRaw Optimizer.computeDay cap el ls).getD i dayDefault).end_capacity
      = ((weekRaw Optimizer.computeDay cap el ls).getD (i + 1) dayDefault).start_capacity
    ∧ ((weekRaw App.computeDay cap el ls).getD i dayDefault).end_capacity
      = ((weekRaw App.computeDay cap el ls).getD (i + 1) dayDefault).start_capacity :=
  ⟨weekRaw_chain Optimizer.computeDay O_start_capacity ls cap el i h1,
    weekRaw_chain App.computeDay A_start_capacity ls cap el i h2⟩

/-- C1 witness: the chaining of the unrounded capacities at day 1 of a
two-day plan. -/
theorem c1_chaining_witness :
    (0 + 1 < (weekRaw Optimizer.computeDay 1000 60 [300, 300]).length
      ∧ 0 + 1 < (weekRaw App.computeDay 1000 60 [300, 300]).length)
    ∧ (((weekRaw Optimizer.computeDay 1000 60 [300, 300]).getD 0 dayDefault).end_capacity
        = ((weekRaw Optimizer.computeDay 1000 60 [300, 300]).getD (0 + 1)
            dayDefault).start_capacity
      ∧ ((weekRaw App.computeDay 1000 60 [300, 300]).getD 0 dayDefault).end_capacity
        = ((weekRaw App.computeDay 1000 60 [300, 300]).getD (0 + 1)
            dayDefault).start_capacity) :=
  ⟨⟨by rw [weekRaw_length]; norm_num, by rw [weekRaw_length]; norm_num⟩,
    c1_chaining_amended 1000 60 [300, 300] 0 (by rw [weekRaw_length]; norm_num)
      (by rw [weekRaw_length]; norm_num)⟩

/-- C3 counterexample: at load ratio 0.66, `compressor_optimizer.py`
returns 470 — the exact table speed, not a multiple of 20, so not the
snapped value the claim requires — while `app.py` returns the snapped 480. -/
theorem c3_rpm_cex :
    Optimizer.get_rpm_from_load 0.66 = 470
    ∧ ¬ (20 ∣ Optimizer.get_rpm_from_load 0.66)
    ∧ App.get_rpm_from_load 0.66 = 480 := by
  have hO : Optimizer.get_rpm_from_load 0.66 = 470 := by
    rw [O_rpm_eq]
    norm_num [Ospec]
  have hA : App.get_rpm_from_load 0.66 = 480 := by
    rw [A_rpm_eq]
    norm_num [Aspec]
  exact ⟨hO, by rw [hO]; decide, hA⟩

/-- C3 amended: both versions return 450 for ratios `≤ 0.62` and 630 for
ratios `≥ 0.9965`; in between, `compressor_optimizer.py` returns the speed
paired with the largest tabulated ratio `≤` the input, with no snapping,
while `app.py` snaps that speed to a multiple of 20 (ties to even) and
clamps to [450, 630]; the four boundary values hold for both. -/
theorem c3_rpm_amended :
    (∀ x : ℚ, x ≤ 0.62 →
      Optimizer.get_rpm_from_load x = 450 ∧ App.get_rpm_from_load x = 450)
    ∧ (∀ x : ℚ, (0.9965 : ℚ) ≤ x →
      Optimizer.get_rpm_from_load x = 630 ∧ App.get_rpm_from_load x = 630)
    ∧ (∀ x : ℚ, 0.62 < x → x < 0.9965 →
      Optimizer.get_rpm_from_load x
          = ((specLastRatio Optimizer.rpm_load_map x).map Prod.fst).getD 450
        ∧ App.get_rpm_from_load x
          = ((specLast App.loadTbl x).map
              (fun base_rpm => min 630 (max 450 (pyRound ((base_rpm : ℚ) / 20) * 20)))).getD 450)
    ∧ Optimizer.get_rpm_from_load 0 = 450
    ∧ Optimizer.get_rpm_from_load 0.62 = 450
    ∧ Optimizer.get_rpm_from_load 0.9965 = 630
    ∧ Optimizer.get_rpm_from_load 1 = 630
    ∧ App.get_rpm_from_load 0 = 450
    ∧ App.get_rpm_from_load 0.62 = 450
    ∧ App.get_rpm_from_load 0.9965 = 630
    ∧ App.get_rpm_from_load 1 = 630 := by
  refine ⟨?_, ?_, ?_, ?_, ?_, ?_, ?_, ?_, ?_, ?_, ?_⟩
  · intro x hx
    constructor
    · rw [O_rpm_eq]
      unfold Ospec
      rw [if_pos hx]
    · rw [A_rpm_eq]
      unfold Aspec
      rw [if_pos hx]
  · intro x hx
    constructor
    · rw [O_rpm_eq]
      unfold Ospec
      rw [if_neg (by linarith), if_pos (show x ≥ 0.9965 from hx)]
    · rw [A_rpm_eq]
      unfold Aspec
      rw [if_neg (by linarith), if_pos (show x ≥ 0.9965 from hx)]
  · intro x h1 h2
    exact ⟨O_rpm_char x h1 h2, A_rpm_char x (not_le.mpr h1) (not_le.mpr h2)⟩
  · rw [O_rpm_eq]; norm_num [Ospec]
  · rw [O_rpm_eq]; norm_num [Ospec]
  · rw [O_rpm_eq]; norm_num [Ospec]
  · rw [O_rpm_eq]; norm_num [Ospec]
  · rw [A_rpm_eq]; norm_num [Aspec]
  · rw [A_rpm_eq]; norm_num [Aspec]
  · rw [A_rpm_eq]; norm_num [Aspec]
  · rw [A_rpm_eq]; norm_num [Aspec]

/-- C3 witness: the middle-range characterization applied at 0.7. -/
theorem c3_rpm_witness :
    ((0.62 : ℚ) < 0.7 ∧ (0.7 : ℚ) < 0.9965)
    ∧ (Optimizer.get_rpm_from_load 0.7
          = ((specLastRatio Optimizer.rpm_load_map 0.7).map Prod.fst).getD 450
      ∧ App.get_rpm_from_load 0.7
          = ((specLast App.loadTbl 0.7).map
              (fun base_rpm => min 630 (max 450 (pyRound ((base_rpm : ℚ) / 20) * 20)))).getD 450) :=
  ⟨by norm_num, c3_rpm_amended.2.2.1 0.7 (by norm_num) (by norm_num)⟩

/-- C4 counterexample: at rpm 500, `compressor_optimizer.py` returns the
0.62 default because 500 is not a dict key, while the claimed
round-then-largest-tabulated-speed rule gives 0.694736842105263 (the ratio
of speed 490). -/
theorem c4_load_cex :
    Optimizer.get_load_from_rpm 500 = 0.62
    ∧ (specLast OspeedTbl ((pyRound ((500 : ℚ) / 20) * 20 : ℤ) : ℚ)).getD 0.62
        = 0.694736842105263
    ∧ (0.62 : ℚ) ≠ 0.694736842105263 := by
  refine ⟨by norm_num [Optimizer.get_load_from_rpm, Optimizer.rpm_load_map, dictGetD],
    ?_, by norm_num⟩
  norm_num [specLast, keepLE, OspeedTbl, Optimizer.rpm_load_map, pyRound, List.getLast?]

/-- C4 amended: `app.py`'s `get_load_from_rpm` rounds the input to a
multiple of 20 (ties to even) and returns the ratio of the largest
tabulated speed `≤` the rounded value, with 0.62 as the fall-through
default (which input 450 also hits, since it rounds down to 440);
`compressor_optimizer.py`'s version is an exact dict lookup that returns
the table ratio for tabulated speeds and 0.62 for every other input. -/
theorem c4_load_amended :
    (∀ r : ℚ, App.get_load_from_rpm r
        = (specLast App.speedTbl ((pyRound (r / 20) * 20 : ℤ) : ℚ)).getD 0.62)
    ∧ (∀ p ∈ Optimizer.rpm_load_map, Optimizer.get_load_from_rpm p.1 = p.2)
    ∧ (∀ r : ℤ, (∀ p ∈ Optimizer.rpm_load_map, p.1 ≠ r) →
        Optimizer.get_load_from_rpm r = 0.62)
    ∧ App.get_load_from_rpm 450 = 0.62 := by
  refine ⟨A_load_char, O_load_table, fun r h => O_load_default r h, ?_⟩
  rw [A_load_eq]
  norm_num [AloadSpec, pyRound]

/-- C4 witness: the exact-dict behaviour at tabulated speed 450. -/
theorem c4_load_witness :
    (((450 : ℤ), (0.617543859649123 : ℚ)) ∈ Optimizer.rpm_load_map)
    ∧ Optimizer.get_load_from_rpm ((450 : ℤ), (0.617543859649123 : ℚ)).1
        = ((450 : ℤ), (0.617543859649123 : ℚ)).2 :=
  ⟨by simp [Optimizer.rpm_load_map],
    c4_load_amended.2.1 ((450 : ℤ), (0.617543859649123 : ℚ))
      (by simp [Optimizer.rpm_load_map])⟩

/-- C8 counterexample: neither file validates the input length: one
loading yields a silently truncated one-day plan, and eight loadings make
`app.py` fail with an index error on the day label (modelled as `none`),
not an `InvalidInputLength` signal. -/
theorem c8_length_cex :
    (Optimizer.generate_weekly_plan default_params [300]).map List.length = some 1
    ∧ App.generate_weekly_plan default_params
        [300, 300, 300, 300, 300, 300, 300, 300] = none := by
  constructor
  · rw [show Optimizer.generate_weekly_plan default_params [300]
        = weekAux Optimizer.computeDay days 1000 60 [300] from rfl, weekAux_len]
    norm_num [days]
  · have h := weekAux_len App.computeDay [300, 300, 300, 300, 300, 300, 300, 300] days 1000 60
    rw [if_neg (by norm_num [days])] at h
    exact Option.map_eq_none'.mp h

/-- C8 amended: `generate_weekly_plan` performs no length validation: for
at most 7 loadings it returns a plan of exactly the input length (shorter
inputs are silently accepted), and for more than 7 it aborts with an
index error on the day label, modelled as `none`. -/
theorem c8_length_amended (p : Params) (ls : List ℚ) :
    ((Optimizer.generate_weekly_plan p ls).map List.length
      = if ls.length ≤ 7 then some ls.length else none)
    ∧ ((App.generate_weekly_plan p ls).map List.length
      = if ls.length ≤ 7 then some ls.length else none) := by
  constructor
  · rw [show Optimizer.generate_weekly_plan p ls
        = weekAux Optimizer.computeDay days p.current_capacity p.empty_loss ls from rfl,
      weekAux_len, show days.length = 7 from rfl]
  · rw [show App.generate_weekly_plan p ls
        = weekAux App.computeDay days p.current_capacity p.empty_loss ls from rfl,
      weekAux_len, show days.length = 7 from rfl]

/-- C9 counterexample: the two files' lookups disagree: at load ratio 0.66
`compressor_optimizer.py` returns speed 470 while `app.py` returns 480. -/
theorem c9_equiv_cex :
    Optimizer.get_rpm_from_load 0.66 ≠ App.get_rpm_from_load 0.66 := by
  have hO : Optimizer.get_rpm_from_load 0.66 = 470 := by
    rw [O_rpm_eq]
    norm_num [Ospec]
  have hA : App.get_rpm_from_load 0.66 = 480 := by
    rw [A_rpm_eq]
    norm_num [Aspec]
  rw [hO, hA]
  norm_num

/-- C9 amended: the two files agree on `determine_mode` and on
`calculate_daily_output`, but their speed/load lookups differ (speed 470
vs 480 at ratio 0.66; ratio 0.617543859649123 vs 0.62 at speed 450), and
`generate_weekly_plan` consequently differs on concrete inputs. -/
theorem c9_equiv_amended :
    (∀ d c : ℚ, Optimizer.determine_mode d c = App.determine_mode d c)
    ∧ (∀ (m : String) (f p : ℚ),
        Optimizer.calculate_daily_output m f p = App.calculate_daily_output m f p)
    ∧ Optimizer.get_load_from_rpm 450 ≠ App.get_load_from_rpm 450
    ∧ Optimizer.generate_weekly_plan default_params [240]
        ≠ App.generate_weekly_plan default_params [240] := by
  refine ⟨mode_agree, output_agree, ?_, ?_⟩
  · have hO : Optimizer.get_load_from_rpm 450 = 0.617543859649123 := by
      norm_num [Optimizer.get_load_from_rpm, Optimizer.rpm_load_map, dictGetD]
    have hA : App.get_load_from_rpm (450 : ℚ) = 0.62 := by
      rw [A_load_eq]
      norm_num [AloadSpec, pyRound]
    rw [hO, hA]
    norm_num
  · intro heq
    have h := congrArg (Option.map (fun pl => (pl.getD 0 dpDefault).flat_load_rate)) heq
    norm_num [Optimizer.generate_weekly_plan, App.generate_weekly_plan, weekAux, days,
      default_params, renderDay, pyRoundDec,
      Optimizer.computeDay, Optimizer.dayFields, Optimizer.determine_mode,
      Optimizer.calculate_flat_rpm, Optimizer.calculate_peak_rpm,
      Optimizer.calculate_daily_output, Optimizer.get_rpm_from_load,
      Optimizer.get_load_from_rpm, Optimizer.rpm_load_map, dictGetD, leFilter, pymax,
      findClose, App.computeDay, App.dayFields, App.determine_mode,
      App.calculate_flat_rpm, App.calculate_peak_rpm, App.calculate_daily_output,
      App.get_rpm_from_load, App.get_load_from_rpm, App.loadTbl, App.speedTbl,
      App.load_list, App.rpm_list, firstLE, firstLEOpt, pyRound, abs_lt, List.foldl,
      ne_dual_single, ne_refill_single, ne_single_refill, ne_dual_refill] at h
